import Mathlib

/-! Application multiplexer (celestia-app `multiplexer/abci/multiplexer.go`).

A shallow embedding of the multiplexer's supervisory state machine.  Go
pointers to mutable collaborators (`*appd.Appd`, `*node.Node`, the native
application, gRPC connections) are modelled by handles, their run state is
kept in explicit fields, and every call into a collaborator whose result the
multiplexer does not control reads its result from an `Env` record.  Each
operation returns the new state, the list of collaborator calls it made and
its Go return value.
-/

namespace Mux

/-- Identity of a process descriptor (`*appd.Appd`). -/
abbrev AppdRef := Nat

/-- Identity of a native application instance (`servertypes.Application`). -/
abbrev AppHandle := Nat

/-- Identity of a consensus node (`*node.Node`). -/
abbrev NodeRef := Nat

/-- Identity of a trace writer (`io.WriteCloser`). -/
abbrev TraceWriter := Nat

/-- Go `error` values: the sentinel, errors produced by collaborators, and
the two shapes `fmt.Errorf` is used with in the source (plain text and text
followed by a wrapped cause, `%w`). -/
inductive Err where
  | ErrNoVersionFound : Err
  | external (what : String) : Err
  | errorf (text : String) : Err
  | wrapf (text : String) (cause : Err) : Err
  deriving DecidableEq, Repr

/-- The text of an error, as `Error()` renders it.  The text of the sentinel
is not part of the sources; only the texts built by `fmt.Errorf` are used. -/
def Err.message : Err → String
  | .ErrNoVersionFound => "no version found"
  | .external what => what
  | .errorf text => text
  | .wrapf text cause => text ++ cause.message

/-- `errors.Is(err, ErrNoVersionFound)`: the sentinel itself or an error
wrapping it. -/
def Err.isNoVersionFound : Err → Bool
  | .ErrNoVersionFound => true
  | .external _ => false
  | .errorf _ => false
  | .wrapf _ cause => cause.isNoVersionFound

/-- Modelled from the spec: the declaration of `ABCIClientVersion` and its two
constants is not part of the sources; the spec gives the tagged enum V1, V2.
The Go type is an integer, so a `Version` can carry any integer. -/
def ABCIClientVersion1 : Int := 0

/-- Modelled from the spec: second value of the `ABCIClientVersion` enum. -/
def ABCIClientVersion2 : Int := 1

/-- Modelled from the spec: the `Version` record (its declaration is not part
of the sources).  `GetStartArgs` is the version's argv transformer; the zero
value `Version{}` has no descriptor, no pre-handlers and passes argv
through. -/
structure Version where
  AppVersion : Nat
  ABCIVersion : Int
  Appd : Option AppdRef
  PreHandlers : List String
  GetStartArgs : List String → List String

/-- The Go zero value `Version{}`. -/
def Version.empty : Version :=
  { AppVersion := 0, ABCIVersion := 0, Appd := none, PreHandlers := [], GetStartArgs := fun a => a }

/-- A gRPC client connection, tagged by the place that dialled it. -/
inductive Conn where
  | abciClient (target : String) : Conn
  | grpcGateway (target : String) : Conn
  deriving DecidableEq, Repr

/-- Calls made to collaborators, in the order the code makes them. -/
inductive Event where
  | appdStop (p : AppdRef) : Event
  | preHandlerRun (p : AppdRef) (cmd : String) : Event
  | appdStart (p : AppdRef) (args : List String) : Event
  | openTraceFile (file : String) : Event
  | openDB : Event
  | appCreator : Event
  | registerServices (app : AppHandle) : Event
  | grpcNewClient (target : String) : Event
  | newGRPCServer : Event
  | configureRPC : Event
  | blockEventListener : Event
  | grpcServerStart : Event
  | startTelemetry : Event
  | apiServerStart : Event
  | loadNodeKey : Event
  | newNode : Event
  | nodeStart (n : NodeRef) : Event
  | nodeStop (n : NodeRef) : Event
  | appClose (app : AppHandle) : Event
  | connClose (c : Conn) : Event
  | traceWriterClose (w : TraceWriter) : Event
  | wait : Event
  deriving DecidableEq, Repr

/-- Results of the collaborator calls an operation may make.  A field of type
`Option Err` is the error the call returns (`none` for `nil`). -/
structure Env where
  /-- Value of `os.Args`. -/
  args : List String
  /-- Result of `Appd.Stop`. -/
  stopErr : Option Err
  /-- Result of running the pre-handler at a position of the list. -/
  preHandlerErr : Nat → Option Err
  /-- Result of `Appd.Start`. -/
  startErr : Option Err
  /-- The child has already exited when `IsStopped` is polled after `Start`. -/
  startExited : Bool
  /-- Result of `os.OpenFile` for the trace store. -/
  openFileErr : Option Err
  /-- The writer `os.OpenFile` returns. -/
  newTraceWriter : TraceWriter
  /-- Result of `openDB`. -/
  openDBErr : Option Err
  /-- The application the app-creator returns (`none` for a nil interface). -/
  createdApp : Option AppHandle
  /-- Result of `grpc.NewClient` in `initRemoteGrpcConn`. -/
  dialErr : Option Err
  /-- Result of `net.SplitHostPort`. -/
  splitHostPortErr : Option Err
  /-- Result of `grpc.NewClient` in `startGRPCServer`. -/
  grpcClientErr : Option Err
  /-- Result of `servergrpc.NewGRPCServer`. -/
  newGRPCServerErr : Option Err
  /-- Result of `cmNode.ConfigureRPC`. -/
  configureRPCErr : Option Err
  /-- Result of `telemetry.New`. -/
  telemetryErr : Option Err
  /-- Result of `p2p.LoadOrGenNodeKey`. -/
  nodeKeyErr : Option Err
  /-- Result of `node.NewNodeWithContext`. -/
  newNodeErr : Option Err
  /-- The node `node.NewNodeWithContext` returns. -/
  newNodeRef : NodeRef
  /-- Result of `cmNode.Start`. -/
  nodeStartErr : Option Err
  /-- Result of `cmNode.Stop`. -/
  nodeStopErr : Option Err
  /-- Result of `nativeApp.Close`. -/
  appCloseErr : Option Err
  /-- Result of `conn.Close`. -/
  connCloseErr : Option Err
  /-- Result of `traceWriter.Close`. -/
  traceCloseErr : Option Err
  /-- Result of `g.Wait`. -/
  waitErr : Option Err

/-- The `Multiplexer` struct.  The configuration values read through
`svrCtx.Viper` and `svrCfg` are fields; `procs` and `nodesRunning` hold the run
state of the process descriptors and consensus nodes the struct points to. -/
structure Multiplexer where
  /-- Viper value `proxy_app`. -/
  proxyApp : String
  /-- Viper value `address`. -/
  address : String
  /-- Viper value `grpc-only`. -/
  grpcOnly : Bool
  /-- Viper value `trace-store`. -/
  traceStore : String
  /-- Value of `svrCfg.GRPC.Enable`. -/
  grpcEnable : Bool
  /-- Value of `svrCfg.GRPC.Address`. -/
  grpcAddress : String
  /-- Value of `svrCfg.API.Enable`. -/
  apiEnable : Bool
  appVersion : Nat
  nextAppVersion : Nat
  started : Bool
  nativeApp : Option AppHandle
  activeVersion : Version
  chainID : String
  cmNode : Option NodeRef
  /-- The registry, through its only use `versions.GetForAppVersion`. -/
  versions : Nat → Except Err Version
  conn : Option Conn
  traceWriter : Option TraceWriter
  /-- Process descriptors whose child is running. -/
  procs : List AppdRef
  /-- Consensus nodes that are running. -/
  nodesRunning : List NodeRef

/-- State, collaborator calls and Go return value of an operation. -/
structure Out (α : Type) where
  m : Multiplexer
  events : List Event
  ret : α

/-- The handle `getApp` returns. -/
inductive ABCI where
  | native (app : Option AppHandle) : ABCI
  | remoteV1 (conn : Option Conn) (chainID : String) (appVersion : Nat) : ABCI
  | remoteV2 (conn : Option Conn) : ABCI
  deriving DecidableEq, Repr

/-- Modelled from the spec: `Appd.IsRunning` (the package `appd` is not part of
the sources).  A descriptor is a two-state machine Stopped/Running; the
descriptors whose child is running are those listed in `procs`. -/
def Multiplexer.IsRunning (m : Multiplexer) (p : AppdRef) : Bool := decide (p ∈ m.procs)

/-- Modelled from the spec: `Appd.IsStopped`, the negation of `IsRunning`. -/
def Multiplexer.IsStopped (m : Multiplexer) (p : AppdRef) : Bool := !m.IsRunning p

/-- Construction: `NewMultiplexer` given the configuration, the registry and
the result of `versions.Validate`. -/
def NewMultiplexer (proxyApp address : String) (grpcOnly : Bool) (traceStore : String)
    (grpcEnable : Bool) (grpcAddress : String) (apiEnable : Bool)
    (versions : Nat → Except Err Version) (validateErr : Option Err)
    (chainID : String) (applicationVersion : Nat) : Except Err Multiplexer :=
  match validateErr with
  | some err => .error (.wrapf "invalid versions: " err)
  | none =>
    .ok { proxyApp := proxyApp, address := address, grpcOnly := grpcOnly, traceStore := traceStore,
          grpcEnable := grpcEnable, grpcAddress := grpcAddress, apiEnable := apiEnable,
          appVersion := applicationVersion, nextAppVersion := 0, started := false,
          nativeApp := none, activeVersion := Version.empty, chainID := chainID, cmNode := none,
          versions := versions, conn := none, traceWriter := none, procs := [],
          nodesRunning := [] }

def isNativeApp (m : Multiplexer) : Bool := m.nativeApp.isSome

def isEmbeddedApp (m : Multiplexer) : Bool := !isNativeApp m

def isGrpcOnly (m : Multiplexer) : Bool := m.grpcOnly

/-- The function `removeStart`: the empty argv is returned as it is; otherwise
the loop appends to `result` every argument after the first that is not
`start`. -/
def removeStart (args : List String) : List String :=
  match args with
  | [] => args
  | _ :: rest => rest.foldl (fun result arg => if arg != "start" then result ++ [arg] else result) []

/-- Go `strings.TrimPrefix`. -/
def trimPrefix (s pre : String) : String :=
  if pre.toList.isPrefixOf s.toList then String.mk (s.toList.drop pre.length) else s

def embeddedVersionRunning (m : Multiplexer) : Bool :=
  match m.activeVersion.Appd with
  | none => false
  | some p => m.IsRunning p

def stopEmbeddedApp (e : Env) (m : Multiplexer) : Out (Option Err) :=
  match m.activeVersion.Appd with
  | none => ⟨m, [], none⟩
  | some p =>
    if m.IsRunning p then
      match e.stopErr with
      | some err =>
        ⟨m, [.appdStop p],
          some (.wrapf ("failed to stop embedded app for version "
            ++ toString m.activeVersion.AppVersion ++ ": ") err)⟩
      | none =>
        ⟨{ m with procs := m.procs.filter (fun q => q != p), started := false,
                  activeVersion := Version.empty }, [.appdStop p], none⟩
    else ⟨m, [], none⟩

/-- The pre-handler loop of `startEmbeddedApp`: each pre-handler is run; a
failure is logged and the loop continues. -/
def runPreHandlers (e : Env) (p : AppdRef) : Nat → List String → List Event
  | _, [] => []
  | i, h :: hs =>
    match e.preHandlerErr i with
    | some _ => Event.preHandlerRun p h :: runPreHandlers e p (i + 1) hs
    | none => Event.preHandlerRun p h :: runPreHandlers e p (i + 1) hs

/-- Rendering of the verb `%d` applied to the `nativeApp` field, which is not
an integer. -/
def fmtApp : Option AppHandle → String
  | none => "%!d(<nil>)"
  | some h => "%!d(app=" ++ toString h ++ ")"

def openTraceWriter (e : Env) (traceWriterFile : String) :
    List Event × Except Err (Option TraceWriter) :=
  if traceWriterFile = "" then ([], .ok none)
  else
    match e.openFileErr with
    | some err => ([.openTraceFile traceWriterFile], .error err)
    | none => ([.openTraceFile traceWriterFile], .ok (some e.newTraceWriter))

def getTraceWriter (e : Env) (m : Multiplexer) : List Event × Except Err (Option TraceWriter) :=
  openTraceWriter e m.traceStore

def startNativeApp (e : Env) (m : Multiplexer) : Out (Except Err (Option AppHandle)) :=
  match getTraceWriter e m with
  | (ev, .error err) => ⟨m, ev, .error err⟩
  | (ev, .ok traceWriter) =>
    let m1 := { m with traceWriter := traceWriter }
    match e.openDBErr with
    | some err => ⟨m1, ev ++ [.openDB], .error err⟩
    | none =>
      let m2 := { m1 with nativeApp := e.createdApp, started := true }
      ⟨m2, ev ++ [.openDB, .appCreator], .ok m2.nativeApp⟩

def startGRPCServer (e : Env) (m : Multiplexer) : Out (Option Err) :=
  match e.splitHostPortErr with
  | some err => ⟨m, [], some err⟩
  | none =>
    match e.grpcClientErr with
    | some err => ⟨m, [.grpcNewClient m.grpcAddress], some err⟩
    | none =>
      match e.newGRPCServerErr with
      | some err => ⟨m, [.grpcNewClient m.grpcAddress, .newGRPCServer], some err⟩
      | none =>
        match e.configureRPCErr with
        | some err => ⟨m, [.grpcNewClient m.grpcAddress, .newGRPCServer, .configureRPC], some err⟩
        | none =>
          ⟨{ m with conn := some (.grpcGateway m.grpcAddress) },
            [.grpcNewClient m.grpcAddress, .newGRPCServer, .configureRPC, .blockEventListener,
              .grpcServerStart], none⟩

def startAPIServer (m : Multiplexer) : Out (Option Err) :=
  if isEmbeddedApp m then ⟨m, [], some (.errorf "cannot start api server for embedded app")⟩
  else ⟨m, [.apiServerStart], none⟩

def enableGRPCAndAPIServers (e : Env) (m : Multiplexer) (app : Option AppHandle) :
    Out (Option Err) :=
  match app with
  | none => ⟨m, [], some (.errorf "unable to enable grpc and api servers, app is nil")⟩
  | some a =>
    let reg : List Event := if m.apiEnable || m.grpcEnable then [.registerServices a] else []
    if m.grpcEnable then
      let g := startGRPCServer e m
      match g.ret with
      | some err => ⟨g.m, reg ++ g.events, some err⟩
      | none =>
        if g.m.apiEnable then
          match e.telemetryErr with
          | some err => ⟨g.m, reg ++ g.events ++ [.startTelemetry], some err⟩
          | none =>
            let a1 := startAPIServer g.m
            ⟨a1.m, reg ++ g.events ++ [.startTelemetry] ++ a1.events, a1.ret⟩
        else ⟨g.m, reg ++ g.events, none⟩
    else ⟨m, reg, none⟩

/-- The error `initRemoteGrpcConn` returns when the two addresses differ. -/
def addressMismatch (abciClientAddr abciServerAddr : String) : Err :=
  .errorf ("ABCI client and server addresses must match:\n client="
    ++ abciClientAddr ++ "\n server=" ++ abciServerAddr ++ "\n"
    ++ "To resolve, please configure the ABCI client (via --proxy_app flag) to match the ABCI server (via --address flag)")

def initRemoteGrpcConn (e : Env) (m : Multiplexer) : Out (Option Err) :=
  let abciClientAddr := m.proxyApp
  let abciServerAddr := m.address
  if abciServerAddr != abciClientAddr then
    ⟨m, [], some (addressMismatch abciClientAddr abciServerAddr)⟩
  else
    let target := trimPrefix abciServerAddr "tcp://"
    match e.dialErr with
    | some err => ⟨m, [.grpcNewClient target], some (.wrapf "failed to prepare app connection: " err)⟩
    | none => ⟨{ m with conn := some (.abciClient target) }, [.grpcNewClient target], none⟩

def startApp (e : Env) (m : Multiplexer) : Out (Option Err) :=
  match m.versions m.appVersion with
  | .error err =>
    if err.isNoVersionFound then
      let n := startNativeApp e m
      match n.ret with
      | .error err1 => ⟨n.m, n.events, some (.wrapf "failed to start native app: " err1)⟩
      | .ok _ => ⟨n.m, n.events, none⟩
    else
      ⟨m, [], some (.wrapf ("failed to get app for version " ++ toString m.appVersion ++ ": ") err)⟩
  | .ok currentVersion =>
    match currentVersion.Appd with
    | none => ⟨m, [], some (.errorf ("appd is nil for version " ++ toString m.appVersion))⟩
    | some p =>
      if m.IsStopped p then
        let programArgs := removeStart e.args
        let ev : List Event := [.appdStart p (currentVersion.GetStartArgs programArgs)]
        match e.startErr with
        | some err => ⟨m, ev, some (.wrapf "failed to start app: " err)⟩
        | none =>
          if e.startExited then ⟨m, ev, some (.errorf "app failed to start")⟩
          else
            let m1 := { m with procs := p :: m.procs, started := true,
                               activeVersion := currentVersion }
            let c := initRemoteGrpcConn e m1
            ⟨c.m, ev ++ c.events, c.ret⟩
      else initRemoteGrpcConn e m

def startEmbeddedApp (e : Env) (m : Multiplexer) (version : Version) : Out (Option Err) :=
  match version.Appd with
  | none =>
    ⟨m, [], some (.errorf ("appd is nil for version " ++ toString m.activeVersion.AppVersion))⟩
  | some p =>
    let s := stopEmbeddedApp e m
    match s.ret with
    | some err => ⟨s.m, s.events, some (.wrapf "failed to stop active version: " err)⟩
    | none =>
      if s.m.IsStopped p then
        let pre := runPreHandlers e p 0 version.PreHandlers
        let programArgs := removeStart e.args
        let ev := s.events ++ pre ++ [.appdStart p (version.GetStartArgs programArgs)]
        match e.startErr with
        | some err =>
          ⟨s.m, ev, some (.wrapf ("failed to start app for version "
            ++ toString s.m.appVersion ++ ": ") err)⟩
        | none =>
          if e.startExited then
            ⟨s.m, ev, some (.errorf ("app for version " ++ fmtApp s.m.nativeApp
              ++ " failed to start"))⟩
          else
            ⟨{ s.m with procs := p :: s.m.procs, activeVersion := version, started := true },
              ev, none⟩
      else ⟨s.m, s.events, none⟩

def getApp (e : Env) (m : Multiplexer) : Out (Except Err ABCI) :=
  match m.versions m.appVersion with
  | .error _ =>
    let s := stopEmbeddedApp e m
    match s.ret with
    | some err => ⟨s.m, s.events, .error (.wrapf "failed to stop embedded app: " err)⟩
    | none =>
      match s.m.nativeApp with
      | none =>
        let n := startNativeApp e s.m
        match n.ret with
        | .error err =>
          ⟨n.m, s.events ++ n.events, .error (.wrapf "failed to start latest app: " err)⟩
        | .ok app =>
          let g := enableGRPCAndAPIServers e n.m app
          match g.ret with
          | some err =>
            ⟨g.m, s.events ++ n.events ++ g.events,
              .error (.wrapf "failed to enable gRPC and API servers: " err)⟩
          | none => ⟨g.m, s.events ++ n.events ++ g.events, .ok (.native g.m.nativeApp)⟩
      | some _ => ⟨s.m, s.events, .ok (.native s.m.nativeApp)⟩
  | .ok currentVersion =>
    let sw : Out (Option Err) :=
      if !m.started || decide (currentVersion.AppVersion > m.activeVersion.AppVersion) then
        startEmbeddedApp e m currentVersion
      else ⟨m, [], none⟩
    match sw.ret with
    | some err => ⟨sw.m, sw.events, .error (.wrapf "failed to start embedded app: " err)⟩
    | none =>
      if sw.m.activeVersion.ABCIVersion = ABCIClientVersion1 then
        ⟨sw.m, sw.events, .ok (.remoteV1 sw.m.conn sw.m.chainID sw.m.appVersion)⟩
      else if sw.m.activeVersion.ABCIVersion = ABCIClientVersion2 then
        ⟨sw.m, sw.events, .ok (.remoteV2 sw.m.conn)⟩
      else
        ⟨sw.m, sw.events, .error (.errorf ("unknown ABCI client version "
          ++ toString sw.m.activeVersion.ABCIVersion))⟩

def startCmtNode (e : Env) (m : Multiplexer) : Out (Option Err) :=
  match e.nodeKeyErr with
  | some err => ⟨m, [.loadNodeKey], some err⟩
  | none =>
    match e.newNodeErr with
    | some err => ⟨m, [.loadNodeKey, .newNode], some err⟩
    | none =>
      match e.nodeStartErr with
      | some err => ⟨m, [.loadNodeKey, .newNode, .nodeStart e.newNodeRef], some err⟩
      | none =>
        ⟨{ m with cmNode := some e.newNodeRef, nodesRunning := e.newNodeRef :: m.nodesRunning },
          [.loadNodeKey, .newNode, .nodeStart e.newNodeRef], none⟩

/-- The method `Start`. -/
def Start (e : Env) (m : Multiplexer) : Out (Option Err) :=
  let a := startApp e m
  match a.ret with
  | some err => ⟨a.m, a.events, some err⟩
  | none =>
    let c : Out (Option Err) :=
      if isGrpcOnly a.m then ⟨{ a.m with grpcEnable := true }, [], none⟩
      else startCmtNode e a.m
    match c.ret with
    | some err => ⟨c.m, a.events ++ c.events, some err⟩
    | none =>
      if isEmbeddedApp c.m then ⟨c.m, a.events ++ c.events ++ [.wait], e.waitErr⟩
      else
        let g := enableGRPCAndAPIServers e c.m c.m.nativeApp
        match g.ret with
        | some err => ⟨g.m, a.events ++ c.events ++ g.events, some err⟩
        | none => ⟨g.m, a.events ++ c.events ++ g.events ++ [.wait], e.waitErr⟩

def stopCometNode (e : Env) (m : Multiplexer) : Out (Option Err) :=
  match m.cmNode with
  | none => ⟨m, [], none⟩
  | some n =>
    if !decide (n ∈ m.nodesRunning) then ⟨m, [], none⟩
    else
      match e.nodeStopErr with
      | some err => ⟨m, [.nodeStop n], some (.wrapf "failed to stop comet node: " err)⟩
      | none => ⟨{ m with nodesRunning := m.nodesRunning.filter (fun q => q != n) },
          [.nodeStop n], none⟩

def stopNativeApp (e : Env) (m : Multiplexer) : Out (Option Err) :=
  match m.nativeApp with
  | none => ⟨m, [], none⟩
  | some a =>
    match e.appCloseErr with
    | some err => ⟨m, [.appClose a], some (.wrapf "failed to close native app: " err)⟩
    | none => ⟨m, [.appClose a], none⟩

def stopGRPCConnection (e : Env) (m : Multiplexer) : Out (Option Err) :=
  match m.conn with
  | none => ⟨m, [], none⟩
  | some c =>
    match e.connCloseErr with
    | some err => ⟨m, [.connClose c], some (.wrapf "failed to close gRPC connection: " err)⟩
    | none => ⟨{ m with conn := none }, [.connClose c], none⟩

def stopTraceWriter (e : Env) (m : Multiplexer) : Out (Option Err) :=
  match m.traceWriter with
  | none => ⟨m, [], none⟩
  | some w => ⟨m, [.traceWriterClose w], e.traceCloseErr⟩

/-- The method `Stop`: the five teardown steps in order; the error of a step
is printed and the next step is taken. -/
def Stop (e : Env) (m : Multiplexer) : Out (Option Err) :=
  let s1 := stopCometNode e m
  let s2 := stopNativeApp e s1.m
  let s3 := stopEmbeddedApp e s2.m
  let s4 := stopGRPCConnection e s3.m
  let s5 := stopTraceWriter e s4.m
  ⟨s5.m, s1.events ++ s2.events ++ s3.events ++ s4.events ++ s5.events, none⟩

/-! ## Runs of the multiplexer -/

/-- Modelled from the spec: `Versions.GetForAppVersion` (the registry is not
part of the sources): lookup by exact match on `AppVersion`, the sentinel
`ErrNoVersionFound` when there is no match. -/
def GetForAppVersion (vs : List Version) (appVersion : Nat) : Except Err Version :=
  match vs.find? (fun v => v.AppVersion == appVersion) with
  | some v => .ok v
  | none => .error .ErrNoVersionFound

/-- The three entry points that change the supervisory state. -/
inductive Op where
  | startApp : Op
  | getApp : Op
  | Stop : Op
  deriving DecidableEq, Repr

/-- One step of a run: the chain's application version becomes `v`, then the
entry point runs with the collaborator results `e`. -/
def step (op : Op) (v : Nat) (e : Env) (m : Multiplexer) : Multiplexer :=
  match op with
  | .startApp => (startApp e { m with appVersion := v }).m
  | .getApp => (getApp e { m with appVersion := v }).m
  | .Stop => (Stop e { m with appVersion := v }).m

/-- A run: the steps of the list, in order. -/
def run (m : Multiplexer) : List (Op × Nat × Env) → Multiplexer
  | [] => m
  | (op, v, e) :: rest => run (step op v e m) rest

/-- The authoritative-singleton property of a state: once `started`, exactly
one of `nativeApp != nil` and `activeVersion.Appd.IsRunning()` holds. -/
def AuthoritativeSingleton (m : Multiplexer) : Prop :=
  m.started = true → xor m.nativeApp.isSome (embeddedVersionRunning m) = true

/-- Collaborators that never fail, with gRPC dialling and process start
succeeding, the program started as `celestia-appd start`. -/
def okEnv : Env :=
  { args := ["celestia-appd", "start"], stopErr := none, preHandlerErr := fun _ => none,
    startErr := none, startExited := false, openFileErr := none, newTraceWriter := 0,
    openDBErr := none, createdApp := some 7, dialErr := none, splitHostPortErr := none,
    grpcClientErr := none, newGRPCServerErr := none, configureRPCErr := none,
    telemetryErr := none, nodeKeyErr := none, newNodeErr := none, newNodeRef := 0,
    nodeStartErr := none, nodeStopErr := none, appCloseErr := none, connCloseErr := none,
    traceCloseErr := none, waitErr := none }

/-- An embedded version serving app version 1 through process descriptor 0. -/
def exV1 : Version :=
  { AppVersion := 1, ABCIVersion := ABCIClientVersion1, Appd := some 0,
    PreHandlers := ["migrate"], GetStartArgs := fun a => a }

/-- An embedded version serving app version 2 through process descriptor 1. -/
def exV2 : Version :=
  { AppVersion := 2, ABCIVersion := ABCIClientVersion2, Appd := some 1,
    PreHandlers := [], GetStartArgs := fun a => a }

/-- A freshly constructed multiplexer over the registry `vs` at app version
`v`, with matching ABCI addresses and the gRPC and API servers disabled. -/
def exInit (vs : List Version) (v : Nat) : Multiplexer :=
  { proxyApp := "tcp://127.0.0.1:26658", address := "tcp://127.0.0.1:26658", grpcOnly := false,
    traceStore := "", grpcEnable := false, grpcAddress := "localhost:9090", apiEnable := false,
    appVersion := v, nextAppVersion := 0, started := false, nativeApp := none,
    activeVersion := Version.empty, chainID := "test", cmNode := none,
    versions := GetForAppVersion vs, conn := none, traceWriter := none, procs := [],
    nodesRunning := [] }

/-- Guard of a step for the singleton invariant: the app-creator returns an
application, `startApp` runs only while no embedded child is running, and
once the native application exists the registry resolves no version. -/
def SingletonGuard (op : Op) (v : Nat) (e : Env) (m : Multiplexer) : Prop :=
  e.createdApp.isSome = true ∧
  (op = Op.startApp → embeddedVersionRunning m = false) ∧
  (m.nativeApp.isSome = true → (m.versions v).isOk = false)

/-- A run all of whose steps satisfy `SingletonGuard`. -/
def GuardedRun (m : Multiplexer) : List (Op × Nat × Env) → Prop
  | [] => True
  | (op, v, e) :: rest => SingletonGuard op v e m ∧ GuardedRun (step op v e m) rest

/-- Inductive strengthening of the singleton property: at least one authority
once started and never both. -/
def SingletonInv (m : Multiplexer) : Prop :=
  (m.started = true → m.nativeApp.isSome = true ∨ embeddedVersionRunning m = true) ∧
  ¬ (m.nativeApp.isSome = true ∧ embeddedVersionRunning m = true)

/-- Two states agree on the fields that decide which application is
authoritative. -/
def SameAuthority (m m1 : Multiplexer) : Prop :=
  m1.started = m.started ∧ m1.nativeApp = m.nativeApp ∧ m1.activeVersion = m.activeVersion ∧
    m1.procs = m.procs

/-- States visited by successive `getApp` calls, the app version set before
each call: the state before the first call, then the state after each. -/
def getAppTrace (m : Multiplexer) : List (Nat × Env) → List Multiplexer
  | [] => [m]
  | (v, e) :: rest => m :: getAppTrace (step Op.getApp v e m) rest

/-- The multiplexer after a boot on the embedded version `exV1`. -/
def exEmbedded : Multiplexer := run (exInit [exV1, exV2] 1) [(Op.startApp, 1, okEnv)]

/-- Relation between the states before and after a `getApp` call: the active
app version did not decrease, or `activeVersion` was reset to the empty
record. -/
def ActiveStep (a b : Multiplexer) : Prop :=
  a.activeVersion.AppVersion ≤ b.activeVersion.AppVersion ∨ b.activeVersion = Version.empty

/-- An unstarted multiplexer records no active version. -/
def UnstartedEmpty (m : Multiplexer) : Prop :=
  m.started = false → m.activeVersion.AppVersion = 0

/-- A state reached through two boots and a teardown: the child of `exV1`
(descriptor 0) is still running, no version is recorded as active and the
multiplexer is not started. -/
def exOrphan : Multiplexer :=
  run (exInit [exV1, exV2] 1)
    [(Op.startApp, 1, okEnv), (Op.startApp, 2, okEnv), (Op.Stop, 2, okEnv)]

/-- The teardown calls of section 4.6 in their fixed order, read off a state:
stop the consensus node if running, close the native application if present,
stop the embedded child if running, close the wire connection if open, close
the trace writer if open. -/
def teardownCalls (m : Multiplexer) : List Event :=
  (match m.cmNode with
    | some n => if n ∈ m.nodesRunning then [Event.nodeStop n] else []
    | none => []) ++
  (match m.nativeApp with
    | some a => [Event.appClose a]
    | none => []) ++
  (match m.activeVersion.Appd with
    | some p => if p ∈ m.procs then [Event.appdStop p] else []
    | none => []) ++
  (match m.conn with
    | some c => [Event.connClose c]
    | none => []) ++
  (match m.traceWriter with
    | some w => [Event.traceWriterClose w]
    | none => [])

/-- Collaborators all of whose teardown calls fail. -/
def failingStopEnv : Env :=
  { okEnv with nodeStopErr := some (.external "node stop"),
               appCloseErr := some (.external "app close"),
               stopErr := some (.external "appd stop"),
               connCloseErr := some (.external "conn close"),
               traceCloseErr := some (.external "trace close") }

/-- A native multiplexer with a running consensus node and a trace writer:
the state after `Start` at an app version the registry does not hold, with
the trace store configured. -/
def exNative : Multiplexer :=
  (Start okEnv { exInit [exV1] 2 with traceStore := "trace.log" }).m

/-- A state in which the consensus node is not running, no embedded child is
running and the wire connection is nil. -/
def Quiescent (m : Multiplexer) : Prop :=
  (∀ n, m.cmNode = some n → n ∉ m.nodesRunning) ∧ embeddedVersionRunning m = false ∧
    m.conn = none

/-- The calls a `Stop` makes on a quiescent state: closing the native
application and the trace writer, whose fields are never reset. -/
def closeAgainCalls (m : Multiplexer) : List Event :=
  (match m.nativeApp with
    | some a => [Event.appClose a]
    | none => []) ++
  (match m.traceWriter with
    | some w => [Event.traceWriterClose w]
    | none => [])

/-- Calls that construct or start a consensus node. -/
def Event.isNodeConstruction : Event → Bool
  | .loadNodeKey => true
  | .newNode => true
  | .nodeStart _ => true
  | _ => false

/-- Calls that start the in-process gRPC server or API server. -/
def Event.isServerStart : Event → Bool
  | .grpcServerStart => true
  | .apiServerStart => true
  | _ => false

/-- The transformation in the words of the claim: the first element dropped,
then only the first occurrence of the literal `start` dropped. -/
def removeStartFirstOnly (a : List String) : List String :=
  (a.drop 1).erase "start"

end Mux

/-! ## Transaction simulator (`test/txsim/blob.go`) -/

namespace Txsim

/-- Wrap-around of Go `int` arithmetic (64-bit two's complement). -/
def wrapInt (x : Int) : Int :=
  (x + 9223372036854775808) % 18446744073709551616 - 9223372036854775808

/-- The values of Go `int`. -/
def IsInt (x : Int) : Prop := -9223372036854775808 ≤ x ∧ x < 9223372036854775808

/-- The struct `Range`. -/
structure Range where
  Min : Int
  Max : Int
  deriving DecidableEq, Repr

def NewRange (rangeMin rangeMax : Int) : Range := { Min := rangeMin, Max := rangeMax }

/-- The call `rand.Intn(n)`: it panics (`none`) when `n <= 0`, otherwise it
returns what the random source draws for `n`. -/
def Intn (draw : Int → Int) (n : Int) : Option Int :=
  if n ≤ 0 then none else some (draw n)

/-- A random source: for positive `n` the value drawn lies in `[0, n)`. -/
def ValidSource (draw : Int → Int) : Prop := ∀ n, 0 < n → 0 ≤ draw n ∧ draw n < n

/-- The method `Range.Rand`; `none` stands for a panic of `rand.Intn`. -/
def Range.Rand (r : Range) (draw : Int → Int) : Option Int :=
  if r.Max ≤ r.Min then some r.Min
  else (Intn draw (wrapInt (r.Max - r.Min))).map (fun k => wrapInt (k + r.Min))

end Txsim

namespace Mux

/-- Calls made only by `startNativeApp`: opening the trace file, opening the
application database and calling the app-creator. -/
def Event.isNativeStart : Event → Bool
  | .openTraceFile _ => true
  | .openDB => true
  | .appCreator => true
  | _ => false

/-! ## Theorems -/


theorem stopEmbeddedApp_cases (e : Env) (m : Multiplexer) :
    ((stopEmbeddedApp e m).m = m ∧
      ((stopEmbeddedApp e m).ret = none → embeddedVersionRunning m = false)) ∨
    (∃ p, m.activeVersion.Appd = some p ∧ (stopEmbeddedApp e m).ret = none ∧
      (stopEmbeddedApp e m).m =
        { m with procs := m.procs.filter (fun q => q != p), started := false,
                 activeVersion := Version.empty }) := by
  unfold stopEmbeddedApp embeddedVersionRunning
  cases h : m.activeVersion.Appd with
  | none => simp
  | some p =>
    by_cases hr : m.IsRunning p = true
    · cases he : e.stopErr with
      | none => simp [hr]
      | some err => simp [hr]
    · simp [hr]

theorem SameAuthority.running {m m1 : Multiplexer} (h : SameAuthority m m1) :
    embeddedVersionRunning m1 = embeddedVersionRunning m := by
  obtain ⟨_, _, h3, h4⟩ := h
  simp [embeddedVersionRunning, Multiplexer.IsRunning, h3, h4]

theorem SameAuthority.inv {m m1 : Multiplexer} (h : SameAuthority m m1)
    (hi : SingletonInv m) : SingletonInv m1 := by
  have hr := h.running
  obtain ⟨h1, h2, _, _⟩ := h
  unfold SingletonInv at *
  rw [hr, h1, h2]
  exact hi

theorem startGRPCServer_same (e : Env) (m : Multiplexer) :
    SameAuthority m (startGRPCServer e m).m := by
  unfold startGRPCServer SameAuthority
  repeat' split
  all_goals simp

theorem startAPIServer_same (m : Multiplexer) : (startAPIServer m).m = m := by
  unfold startAPIServer
  split <;> rfl

theorem enableGRPCAndAPIServers_same (e : Env) (m : Multiplexer) (app : Option AppHandle) :
    SameAuthority m (enableGRPCAndAPIServers e m app).m := by
  have hg := startGRPCServer_same e m
  unfold enableGRPCAndAPIServers
  cases app with
  | none => simp [SameAuthority]
  | some a =>
    by_cases hge : m.grpcEnable = true
    · cases hr : (startGRPCServer e m).ret with
      | some err => simpa [hge, hr] using hg
      | none =>
        by_cases ha : (startGRPCServer e m).m.apiEnable = true
        · cases ht : e.telemetryErr with
          | some err => simpa [hge, hr, ha, ht] using hg
          | none => simpa [hge, hr, ha, ht, startAPIServer_same] using hg
        · simpa [hge, hr, ha] using hg
    · simp [hge, SameAuthority]

theorem initRemoteGrpcConn_same (e : Env) (m : Multiplexer) :
    SameAuthority m (initRemoteGrpcConn e m).m := by
  unfold initRemoteGrpcConn
  by_cases h : (m.address != m.proxyApp) = true
  · simp [h, SameAuthority]
  · cases hd : e.dialErr with
    | some err => simp [h, hd, SameAuthority]
    | none => simp [h, hd, SameAuthority]

theorem stopEmbeddedApp_inv (e : Env) (m : Multiplexer) (hi : SingletonInv m) :
    SingletonInv (stopEmbeddedApp e m).m := by
  rcases stopEmbeddedApp_cases e m with ⟨h, _⟩ | ⟨p, _, _, h⟩
  · rw [h]; exact hi
  · rw [h]; simp [SingletonInv, embeddedVersionRunning, Version.empty]

theorem stopEmbeddedApp_stopped (e : Env) (m : Multiplexer)
    (h : (stopEmbeddedApp e m).ret = none) :
    embeddedVersionRunning (stopEmbeddedApp e m).m = false := by
  rcases stopEmbeddedApp_cases e m with ⟨h1, h2⟩ | ⟨p, _, _, h1⟩
  · rw [h1]; exact h2 h
  · rw [h1]; simp [embeddedVersionRunning, Version.empty]

theorem stopEmbeddedApp_nativeApp (e : Env) (m : Multiplexer) :
    (stopEmbeddedApp e m).m.nativeApp = m.nativeApp := by
  rcases stopEmbeddedApp_cases e m with ⟨h1, _⟩ | ⟨p, _, _, h1⟩ <;> rw [h1]

theorem startNativeApp_inv (e : Env) (m : Multiplexer) (hc : e.createdApp.isSome = true)
    (hr : embeddedVersionRunning m = false) (hi : SingletonInv m) :
    SingletonInv (startNativeApp e m).m := by
  unfold startNativeApp
  repeat' split
  all_goals simp_all [SingletonInv, embeddedVersionRunning, Multiplexer.IsRunning]

/-- The state `startEmbeddedApp` leaves: the input state, the state after
stopping the active child, or that state with the target recorded. -/
theorem startEmbeddedApp_cases (e : Env) (m : Multiplexer) (v : Version) :
    ((startEmbeddedApp e m v).m = m ∧ v.Appd = none) ∨
    ((startEmbeddedApp e m v).m = (stopEmbeddedApp e m).m ∧
      ((startEmbeddedApp e m v).ret = none → ∃ p, v.Appd = some p ∧
        (stopEmbeddedApp e m).ret = none ∧ (stopEmbeddedApp e m).m.IsStopped p = false)) ∨
    (∃ p, v.Appd = some p ∧ (stopEmbeddedApp e m).ret = none ∧
      (stopEmbeddedApp e m).m.IsStopped p = true ∧ e.startErr = none ∧ e.startExited = false ∧
      (startEmbeddedApp e m v).ret = none ∧
      (startEmbeddedApp e m v).m =
        { (stopEmbeddedApp e m).m with procs := p :: (stopEmbeddedApp e m).m.procs,
                                       activeVersion := v, started := true }) := by
  unfold startEmbeddedApp
  cases hv : v.Appd with
  | none => simp
  | some p =>
    cases hs : (stopEmbeddedApp e m).ret with
    | some err => simp [hs]
    | none =>
      by_cases hp : (stopEmbeddedApp e m).m.IsStopped p = true
      · cases hse : e.startErr with
        | some err => simp [hs, hp, hse]
        | none =>
          by_cases hx : e.startExited = true
          · simp [hs, hp, hse, hx]
          · simp [hs, hp, hse, hx]
      · simp [hs, hp]

theorem startEmbeddedApp_inv (e : Env) (m : Multiplexer) (v : Version)
    (hn : m.nativeApp = none) (hi : SingletonInv m) :
    SingletonInv (startEmbeddedApp e m v).m := by
  rcases startEmbeddedApp_cases e m v with ⟨h, _⟩ | ⟨h, _⟩ | ⟨p, hv, _, _, _, _, _, h⟩
  · rw [h]; exact hi
  · rw [h]; exact stopEmbeddedApp_inv e m hi
  · rw [h]
    have hn1 := stopEmbeddedApp_nativeApp e m
    simp [SingletonInv, embeddedVersionRunning, Multiplexer.IsRunning, hv, hn1, hn]

theorem getApp_inv (e : Env) (m : Multiplexer) (hc : e.createdApp.isSome = true)
    (hd : m.nativeApp.isSome = true → (m.versions m.appVersion).isOk = false)
    (hi : SingletonInv m) : SingletonInv (getApp e m).m := by
  unfold getApp
  cases hv : m.versions m.appVersion with
  | error err =>
    have h1 := stopEmbeddedApp_inv e m hi
    cases hs : (stopEmbeddedApp e m).ret with
    | some err1 => simpa [hs] using h1
    | none =>
      have h2 := stopEmbeddedApp_stopped e m hs
      cases hna : (stopEmbeddedApp e m).m.nativeApp with
      | some a => simpa [hs, hna] using h1
      | none =>
        have h3 := startNativeApp_inv e _ hc h2 h1
        cases hn : (startNativeApp e (stopEmbeddedApp e m).m).ret with
        | error err1 => simpa [hs, hna, hn] using h3
        | ok app =>
          have h4 := (enableGRPCAndAPIServers_same e
            (startNativeApp e (stopEmbeddedApp e m).m).m app).inv h3
          cases hg : (enableGRPCAndAPIServers e
            (startNativeApp e (stopEmbeddedApp e m).m).m app).ret with
          | some err1 => simpa [hs, hna, hn, hg] using h4
          | none => simpa [hs, hna, hn, hg] using h4
  | ok cur =>
    have hn : m.nativeApp = none := by
      cases h : m.nativeApp with
      | none => rfl
      | some a =>
        have herr := hd (by simp [h])
        rw [hv] at herr
        simp [Except.isOk, Except.toBool] at herr
    have h1 := startEmbeddedApp_inv e m cur hn hi
    by_cases hc1 : (!m.started || decide (cur.AppVersion > m.activeVersion.AppVersion)) = true
    · simp only [hc1, if_true]
      cases hr : (startEmbeddedApp e m cur).ret with
      | some err => simpa [hr] using h1
      | none =>
        simp only [hr]
        split
        · exact h1
        · split
          · exact h1
          · exact h1
    · simp only [hc1]
      simp only [Bool.false_eq_true, if_false]
      split
      · exact hi
      · split
        · exact hi
        · exact hi

theorem startApp_inv (e : Env) (m : Multiplexer) (hc : e.createdApp.isSome = true)
    (hr : embeddedVersionRunning m = false)
    (hd : m.nativeApp.isSome = true → (m.versions m.appVersion).isOk = false)
    (hi : SingletonInv m) : SingletonInv (startApp e m).m := by
  unfold startApp
  cases hv : m.versions m.appVersion with
  | error err =>
    by_cases hnf : err.isNoVersionFound = true
    · have h3 := startNativeApp_inv e m hc hr hi
      cases hn : (startNativeApp e m).ret with
      | error err1 => simpa [hnf, hn] using h3
      | ok app => simpa [hnf, hn] using h3
    · simpa [hnf] using hi
  | ok cur =>
    have hn : m.nativeApp = none := by
      cases h : m.nativeApp with
      | none => rfl
      | some a =>
        have herr := hd (by simp [h])
        rw [hv] at herr
        simp [Except.isOk, Except.toBool] at herr
    cases hp : cur.Appd with
    | none => simpa [hp] using hi
    | some p =>
      by_cases hst : m.IsStopped p = true
      · cases hse : e.startErr with
        | some err => simpa [hp, hst, hse] using hi
        | none =>
          by_cases hx : e.startExited = true
          · simpa [hp, hst, hse, hx] using hi
          · have h5 : SingletonInv { m with procs := p :: m.procs, started := true,
                                            activeVersion := cur } := by
              simp [SingletonInv, embeddedVersionRunning, Multiplexer.IsRunning, hp, hn]
            have h6 := (initRemoteGrpcConn_same e _).inv h5
            simpa [hp, hst, hse, hx] using h6
      · have h6 := (initRemoteGrpcConn_same e m).inv hi
        simpa [hp, hst] using h6

theorem stopCometNode_same (e : Env) (m : Multiplexer) :
    SameAuthority m (stopCometNode e m).m := by
  unfold stopCometNode
  cases hn : m.cmNode with
  | none => simp [SameAuthority]
  | some n =>
    by_cases hr : n ∈ m.nodesRunning
    · cases he : e.nodeStopErr with
      | some err => simp [hr, SameAuthority]
      | none => simp [hr, SameAuthority]
    · simp [hr, SameAuthority]

theorem stopNativeApp_state (e : Env) (m : Multiplexer) : (stopNativeApp e m).m = m := by
  unfold stopNativeApp
  cases m.nativeApp with
  | none => rfl
  | some a => cases e.appCloseErr <;> rfl

theorem stopGRPCConnection_same (e : Env) (m : Multiplexer) :
    SameAuthority m (stopGRPCConnection e m).m := by
  unfold stopGRPCConnection
  cases hn : m.conn with
  | none => simp [SameAuthority]
  | some c =>
    cases he : e.connCloseErr with
    | some err => simp [SameAuthority]
    | none => simp [SameAuthority]

theorem stopTraceWriter_state (e : Env) (m : Multiplexer) : (stopTraceWriter e m).m = m := by
  unfold stopTraceWriter
  cases m.traceWriter <;> rfl

theorem Stop_inv (e : Env) (m : Multiplexer) (hi : SingletonInv m) :
    SingletonInv (Stop e m).m := by
  unfold Stop
  simp only [stopTraceWriter_state, stopNativeApp_state]
  exact (stopGRPCConnection_same e _).inv
    (stopEmbeddedApp_inv e _ ((stopCometNode_same e m).inv hi))

theorem step_inv (op : Op) (v : Nat) (e : Env) (m : Multiplexer)
    (hg : SingletonGuard op v e m) (hi : SingletonInv m) : SingletonInv (step op v e m) := by
  obtain ⟨hc, hb, hd⟩ := hg
  have hi1 : SingletonInv { m with appVersion := v } := hi
  cases op with
  | startApp => exact startApp_inv e _ hc (hb rfl) hd hi1
  | getApp => exact getApp_inv e _ hc hd hi1
  | Stop => exact Stop_inv e _ hi1

theorem run_inv (steps : List (Op × Nat × Env)) :
    ∀ m : Multiplexer, GuardedRun m steps → SingletonInv m → SingletonInv (run m steps) := by
  induction steps with
  | nil => intro m _ hi; exact hi
  | cons s rest ih =>
    intro m hg hi
    obtain ⟨op, v, e⟩ := s
    exact ih _ hg.2 (step_inv op v e m hg.1 hi)

/-- C1 (as stated, refuted): the registry holds one embedded version for app
version 1 and the multiplexer is constructed at app version 2.  `startApp`
creates the native application; the app version then becomes 1 and `getApp`
starts the embedded child without releasing the native application.  The
resulting state is started with both `nativeApp != nil` and a running
embedded child, so the singleton property fails. -/
theorem C1_counterexample :
    NewMultiplexer "tcp://127.0.0.1:26658" "tcp://127.0.0.1:26658" false "" false
        "localhost:9090" false (GetForAppVersion [exV1]) none "test" 2 = .ok (exInit [exV1] 2) ∧
    ¬ AuthoritativeSingleton
        (run (exInit [exV1] 2) [(Op.startApp, 2, okEnv), (Op.getApp, 1, okEnv)]) := by
  refine ⟨rfl, ?_⟩
  intro h
  have h1 := h (by decide)
  revert h1
  decide

/-- C1 (amended): on every run from `NewMultiplexer` through `startApp`,
`getApp` and `Stop` steps, with the app version free to change between steps,
in which the app-creator returns an application, `startApp` runs only while
no embedded child is running, and the registry resolves no version once the
native application exists, every state reached satisfies: whenever `started`
is true exactly one of `nativeApp != nil` and
`activeVersion.Appd.IsRunning()` holds. -/
theorem C1_singleton_guarded (proxyApp address : String) (grpcOnly : Bool) (traceStore : String)
    (grpcEnable : Bool) (grpcAddress : String) (apiEnable : Bool)
    (versions : Nat → Except Err Version) (validateErr : Option Err) (chainID : String)
    (applicationVersion : Nat) (m0 : Multiplexer) (steps : List (Op × Nat × Env))
    (h0 : NewMultiplexer proxyApp address grpcOnly traceStore grpcEnable grpcAddress apiEnable
      versions validateErr chainID applicationVersion = .ok m0)
    (hg : GuardedRun m0 steps) : AuthoritativeSingleton (run m0 steps) := by
  have hi0 : SingletonInv m0 := by
    unfold NewMultiplexer at h0
    cases validateErr with
    | some err => simp at h0
    | none =>
      simp only [Except.ok.injEq] at h0
      subst h0
      simp [SingletonInv, embeddedVersionRunning, Version.empty]
  obtain ⟨h1, h2⟩ := run_inv steps m0 hg hi0
  intro hs
  cases hn : (run m0 steps).nativeApp.isSome <;>
    cases hr : embeddedVersionRunning (run m0 steps) <;> simp_all

/-- C1 (witness): a boot on the embedded version, an upgrade past the
registry and a teardown. -/
theorem C1_singleton_guarded_witness :
    GuardedRun (exInit [exV1] 1)
        [(Op.startApp, 1, okEnv), (Op.getApp, 2, okEnv), (Op.Stop, 2, okEnv)] ∧
    AuthoritativeSingleton (run (exInit [exV1] 1)
        [(Op.startApp, 1, okEnv), (Op.getApp, 2, okEnv), (Op.Stop, 2, okEnv)]) :=
  ⟨⟨⟨by decide, by decide, by decide⟩, ⟨by decide, by decide, by decide⟩,
      ⟨by decide, by decide, by decide⟩, trivial⟩,
    C1_singleton_guarded "tcp://127.0.0.1:26658" "tcp://127.0.0.1:26658" false "" false
      "localhost:9090" false (GetForAppVersion [exV1]) none "test" 1 (exInit [exV1] 1) _ rfl
      ⟨⟨by decide, by decide, by decide⟩, ⟨by decide, by decide, by decide⟩,
        ⟨by decide, by decide, by decide⟩, trivial⟩⟩

/-- C2 (as stated, refuted): the multiplexer runs the embedded version for
app version 1; the chain moves to app version 3, which the registry does not
hold, and `getApp` stops the child and resets `activeVersion` to the empty
record: `activeVersion.AppVersion` drops from 1 to 0. -/
theorem C2_counterexample :
    ¬ List.Chain' (fun a b : Multiplexer => a.activeVersion.AppVersion ≤ b.activeVersion.AppVersion)
        (getAppTrace exEmbedded [(3, okEnv)]) := by
  intro h
  have h1 := List.chain'_pair.mp h
  revert h1
  decide

theorem startNativeApp_active (e : Env) (m : Multiplexer) :
    (startNativeApp e m).m.activeVersion = m.activeVersion ∧
    ((startNativeApp e m).m.started = false → m.started = false) := by
  unfold startNativeApp
  cases hg : getTraceWriter e m with
  | mk ev r =>
    cases r with
    | error err => simp
    | ok w =>
      cases ho : e.openDBErr with
      | some err => simp [ho]
      | none => simp [ho]

theorem stopEmbeddedApp_active (e : Env) (m : Multiplexer) (h : UnstartedEmpty m) :
    UnstartedEmpty (stopEmbeddedApp e m).m ∧ ActiveStep m (stopEmbeddedApp e m).m ∧
    ((stopEmbeddedApp e m).m.activeVersion = m.activeVersion ∨
      (stopEmbeddedApp e m).m.activeVersion = Version.empty) := by
  rcases stopEmbeddedApp_cases e m with ⟨h1, _⟩ | ⟨p, _, _, h1⟩
  · rw [h1]; exact ⟨h, Or.inl (Nat.le_refl _), Or.inl rfl⟩
  · rw [h1]; simp [UnstartedEmpty, ActiveStep, Version.empty]

theorem startEmbeddedApp_active (e : Env) (m : Multiplexer) (v : Version)
    (hsw : m.started = false ∨ v.AppVersion > m.activeVersion.AppVersion)
    (h : UnstartedEmpty m) :
    UnstartedEmpty (startEmbeddedApp e m v).m ∧ ActiveStep m (startEmbeddedApp e m v).m := by
  have hs := stopEmbeddedApp_active e m h
  rcases startEmbeddedApp_cases e m v with ⟨h1, _⟩ | ⟨h1, _⟩ | ⟨p, _, _, _, _, _, _, h1⟩
  · rw [h1]; exact ⟨h, Or.inl (Nat.le_refl _)⟩
  · rw [h1]; exact ⟨hs.1, hs.2.1⟩
  · rw [h1]
    refine ⟨by simp [UnstartedEmpty], Or.inl ?_⟩
    show m.activeVersion.AppVersion ≤ v.AppVersion
    rcases hsw with h2 | h2
    · rw [h h2]; exact Nat.zero_le _
    · exact Nat.le_of_lt h2

theorem getApp_active (e : Env) (m : Multiplexer) (h : UnstartedEmpty m) :
    UnstartedEmpty (getApp e m).m ∧ ActiveStep m (getApp e m).m := by
  unfold getApp
  cases hv : m.versions m.appVersion with
  | error err =>
    have h1 := stopEmbeddedApp_active e m h
    cases hs : (stopEmbeddedApp e m).ret with
    | some err1 => simpa [hs] using ⟨h1.1, h1.2.1⟩
    | none =>
      cases hna : (stopEmbeddedApp e m).m.nativeApp with
      | some a => simpa [hs, hna] using ⟨h1.1, h1.2.1⟩
      | none =>
        have h3 := startNativeApp_active e (stopEmbeddedApp e m).m
        have h4 : UnstartedEmpty (startNativeApp e (stopEmbeddedApp e m).m).m ∧
            ActiveStep m (startNativeApp e (stopEmbeddedApp e m).m).m := by
          refine ⟨fun hf => ?_, ?_⟩
          · rw [h3.1]; exact h1.1 (h3.2 hf)
          · unfold ActiveStep; rw [h3.1]; exact h1.2.1
        cases hn : (startNativeApp e (stopEmbeddedApp e m).m).ret with
        | error err1 => simpa [hs, hna, hn] using h4
        | ok app =>
          have h5 := enableGRPCAndAPIServers_same e
            (startNativeApp e (stopEmbeddedApp e m).m).m app
          have h6 : UnstartedEmpty (enableGRPCAndAPIServers e
                (startNativeApp e (stopEmbeddedApp e m).m).m app).m ∧
              ActiveStep m (enableGRPCAndAPIServers e
                (startNativeApp e (stopEmbeddedApp e m).m).m app).m := by
            obtain ⟨g1, _, g3, _⟩ := h5
            unfold UnstartedEmpty ActiveStep
            rw [g1, g3]
            exact h4
          cases hg : (enableGRPCAndAPIServers e
            (startNativeApp e (stopEmbeddedApp e m).m).m app).ret with
          | some err1 => simpa [hs, hna, hn, hg] using h6
          | none => simpa [hs, hna, hn, hg] using h6
  | ok cur =>
    have h0 : UnstartedEmpty m ∧ ActiveStep m m := ⟨h, Or.inl (Nat.le_refl _)⟩
    by_cases hc1 : (!m.started || decide (cur.AppVersion > m.activeVersion.AppVersion)) = true
    · have hsw : m.started = false ∨ cur.AppVersion > m.activeVersion.AppVersion := by
        simpa using hc1
      have h1 := startEmbeddedApp_active e m cur hsw h
      simp only [hc1, if_true]
      cases hr : (startEmbeddedApp e m cur).ret with
      | some err => simpa [hr] using h1
      | none =>
        simp only [hr]
        split
        · exact h1
        · split
          · exact h1
          · exact h1
    · simp only [hc1]
      simp only [Bool.false_eq_true, if_false]
      split
      · exact h0
      · split
        · exact h0
        · exact h0

theorem getAppTrace_chain (calls : List (Nat × Env)) :
    ∀ m : Multiplexer, UnstartedEmpty m → List.Chain' ActiveStep (getAppTrace m calls) := by
  induction calls with
  | nil => intro m _; simp [getAppTrace]
  | cons c rest ih =>
    intro m h
    obtain ⟨v, e⟩ := c
    have hm : UnstartedEmpty { m with appVersion := v } := h
    have h1 := getApp_active e { m with appVersion := v } hm
    have h2 := ih (step Op.getApp v e m) h1.1
    unfold getAppTrace
    cases rest with
    | nil => exact List.chain'_pair.mpr h1.2
    | cons c1 rest1 =>
      obtain ⟨v1, e1⟩ := c1
      unfold getAppTrace at h2 ⊢
      exact List.Chain'.cons h1.2 h2

/-- C2 (amended): for every initial state that records no active version
while unstarted (as every state reachable from `NewMultiplexer` does) and
every sequence of `getApp` calls, with any app version and any collaborator
results at each call, after each call `activeVersion.AppVersion` is greater
than or equal to its value before the call, or `activeVersion` has been reset
to the empty record (the embedded child was stopped for the native
application or for a switch). -/
theorem C2_active_version_steps (m : Multiplexer) (calls : List (Nat × Env))
    (h : m.started = false → m.activeVersion.AppVersion = 0) :
    List.Chain' (fun a b : Multiplexer =>
        a.activeVersion.AppVersion ≤ b.activeVersion.AppVersion ∨
          b.activeVersion = Version.empty)
      (getAppTrace m calls) :=
  getAppTrace_chain calls m h

/-- C2 (witness): an upgrade from the first embedded version to the second,
then past the registry. -/
theorem C2_active_version_steps_witness :
    (exEmbedded.started = false → exEmbedded.activeVersion.AppVersion = 0) ∧
    List.Chain' (fun a b : Multiplexer =>
        a.activeVersion.AppVersion ≤ b.activeVersion.AppVersion ∨
          b.activeVersion = Version.empty)
      (getAppTrace exEmbedded [(2, okEnv), (3, okEnv)]) :=
  ⟨by decide, C2_active_version_steps exEmbedded [(2, okEnv), (3, okEnv)] (by decide)⟩

theorem stopEmbeddedApp_frame (e : Env) (m : Multiplexer) :
    (stopEmbeddedApp e m).m.versions = m.versions ∧
    (stopEmbeddedApp e m).m.appVersion = m.appVersion ∧
    (stopEmbeddedApp e m).m.conn = m.conn ∧
    (stopEmbeddedApp e m).m.chainID = m.chainID ∧
    (stopEmbeddedApp e m).m.grpcEnable = m.grpcEnable ∧
    (stopEmbeddedApp e m).m.grpcAddress = m.grpcAddress ∧
    (stopEmbeddedApp e m).m.cmNode = m.cmNode := by
  rcases stopEmbeddedApp_cases e m with ⟨h1, _⟩ | ⟨p, _, _, h1⟩ <;> rw [h1] <;> simp

theorem startEmbeddedApp_frame (e : Env) (m : Multiplexer) (v : Version) :
    (startEmbeddedApp e m v).m.versions = m.versions ∧
    (startEmbeddedApp e m v).m.appVersion = m.appVersion ∧
    (startEmbeddedApp e m v).m.conn = m.conn ∧
    (startEmbeddedApp e m v).m.chainID = m.chainID ∧
    (startEmbeddedApp e m v).m.cmNode = m.cmNode := by
  obtain ⟨f1, f2, f3, f4, _, _, f7⟩ := stopEmbeddedApp_frame e m
  rcases startEmbeddedApp_cases e m v with ⟨h1, _⟩ | ⟨h1, _⟩ | ⟨p, _, _, _, _, _, _, h1⟩ <;>
    rw [h1] <;> simp [f1, f2, f3, f4, f7]

/-- On the embedded path the state `getApp` leaves is the state of the switch
it decided on. -/
theorem getApp_embedded_state (e : Env) (m : Multiplexer) (v : Version)
    (hv : m.versions m.appVersion = .ok v) :
    (getApp e m).m =
        (if !m.started || decide (v.AppVersion > m.activeVersion.AppVersion) then
          startEmbeddedApp e m v else ⟨m, [], none⟩).m ∧
    (getApp e m).events =
        (if !m.started || decide (v.AppVersion > m.activeVersion.AppVersion) then
          startEmbeddedApp e m v else ⟨m, [], none⟩).events := by
  unfold getApp
  simp only [hv]
  generalize (if (!m.started || decide (v.AppVersion > m.activeVersion.AppVersion)) = true then
    startEmbeddedApp e m v else (⟨m, [], none⟩ : Out (Option Err))) = sw
  cases hr : sw.ret with
  | some err => exact ⟨rfl, rfl⟩
  | none =>
    by_cases h1 : sw.m.activeVersion.ABCIVersion = ABCIClientVersion1
    · simp [h1]
    · by_cases h2 : sw.m.activeVersion.ABCIVersion = ABCIClientVersion2
      · rw [if_neg h1, if_pos h2]; exact ⟨rfl, rfl⟩
      · rw [if_neg h1, if_neg h2]; exact ⟨rfl, rfl⟩

theorem getApp_noop (e : Env) (m : Multiplexer) (v : Version) (hs : m.started = true)
    (hv : m.versions m.appVersion = .ok v)
    (hle : v.AppVersion ≤ m.activeVersion.AppVersion) :
    (getApp e m).m = m ∧ (getApp e m).events = [] := by
  have h := getApp_embedded_state e m v hv
  have hc : (!m.started || decide (v.AppVersion > m.activeVersion.AppVersion)) = false := by
    simp [hs, hle]
  rw [hc] at h
  exact h

/-- C3: in a started state in which the registry resolves the app version to
a version `v` with `v.AppVersion <= activeVersion.AppVersion`, `getApp` makes
no collaborator call (it stops no child, runs no pre-handler, starts no
child) and leaves the whole state, in particular `started`, `activeVersion`,
`nativeApp` and `conn`, unchanged; and after a `getApp` that switched to `v`
(the child of `v` was stopped and its start succeeded) a second `getApp`
makes no collaborator call and leaves the state unchanged. -/
theorem C3_equal_or_lower_is_noop (e : Env) (m : Multiplexer) (v : Version)
    (hs : m.started = true) (hv : m.versions m.appVersion = .ok v)
    (hle : v.AppVersion ≤ m.activeVersion.AppVersion) :
    ((getApp e m).events = [] ∧ (getApp e m).m = m ∧
      (getApp e m).m.started = m.started ∧ (getApp e m).m.activeVersion = m.activeVersion ∧
      (getApp e m).m.nativeApp = m.nativeApp ∧ (getApp e m).m.conn = m.conn) ∧
    (∀ (e0 : Env) (m0 : Multiplexer) (p : AppdRef),
      m0.versions m0.appVersion = .ok v →
      (m0.started = false ∨ v.AppVersion > m0.activeVersion.AppVersion) →
      v.Appd = some p → (stopEmbeddedApp e0 m0).m.IsStopped p = true →
      (startEmbeddedApp e0 m0 v).ret = none →
      (getApp e (getApp e0 m0).m).events = [] ∧
        (getApp e (getApp e0 m0).m).m = (getApp e0 m0).m) := by
  have h := getApp_noop e m v hs hv hle
  refine ⟨⟨h.2, h.1, by rw [h.1], by rw [h.1], by rw [h.1], by rw [h.1]⟩, ?_⟩
  intro e0 m0 p hv0 hdec hp hst hret
  have hc : (!m0.started || decide (v.AppVersion > m0.activeVersion.AppVersion)) = true := by
    rcases hdec with h1 | h1 <;> simp [h1]
  have hg := (getApp_embedded_state e0 m0 v hv0).1
  rw [hc] at hg
  simp only [if_true] at hg
  obtain ⟨f1, f2, _⟩ := startEmbeddedApp_frame e0 m0 v
  rcases startEmbeddedApp_cases e0 m0 v with ⟨_, h1⟩ | ⟨_, h1⟩ | ⟨q, _, _, _, _, _, _, h1⟩
  · rw [hp] at h1; cases h1
  · obtain ⟨q, hq, _, hq2⟩ := h1 hret
    rw [hp] at hq
    cases hq
    rw [hst] at hq2
    cases hq2
  · have hstarted : (getApp e0 m0).m.started = true := by rw [hg, h1]
    have hact : (getApp e0 m0).m.activeVersion = v := by rw [hg, h1]
    have hver : (getApp e0 m0).m.versions (getApp e0 m0).m.appVersion = .ok v := by
      rw [hg, f1, f2]; exact hv0
    have h2 := getApp_noop e (getApp e0 m0).m v hstarted hver (by rw [hact])
    exact ⟨h2.2, h2.1⟩

/-- C3 (witness): the multiplexer runs `exV1` and the app version is still
1. -/
theorem C3_equal_or_lower_is_noop_witness :
    exEmbedded.started = true ∧ exEmbedded.versions exEmbedded.appVersion = .ok exV1 ∧
    exV1.AppVersion ≤ exEmbedded.activeVersion.AppVersion ∧
    (getApp okEnv exEmbedded).events = [] ∧ (getApp okEnv exEmbedded).m = exEmbedded :=
  ⟨by decide, rfl, by decide,
    (C3_equal_or_lower_is_noop okEnv exEmbedded exV1 (by decide) rfl (by decide)).1.1,
    (C3_equal_or_lower_is_noop okEnv exEmbedded exV1 (by decide) rfl (by decide)).1.2.1⟩

theorem stopEmbeddedApp_procs (e : Env) (m : Multiplexer)
    (hs : (stopEmbeddedApp e m).ret = none) :
    (∀ q, m.activeVersion.Appd = some q → (stopEmbeddedApp e m).m.IsRunning q = false) ∧
    (∀ r, m.IsRunning r = false → (stopEmbeddedApp e m).m.IsRunning r = false) := by
  rcases stopEmbeddedApp_cases e m with ⟨h1, h2⟩ | ⟨p, hp, _, h1⟩
  · rw [h1]
    refine ⟨fun q hq => ?_, fun r hr => hr⟩
    have h3 := h2 hs
    simp only [embeddedVersionRunning, hq] at h3
    exact h3
  · rw [h1]
    refine ⟨fun q hq => ?_, fun r hr => ?_⟩
    · rw [hp] at hq
      cases hq
      simp [Multiplexer.IsRunning]
    · simp only [Multiplexer.IsRunning, decide_eq_false_iff_not] at hr ⊢
      intro hmem
      exact hr (List.mem_filter.mp hmem).1

/-- C4 (as stated, refuted): in the state `exOrphan` the multiplexer is not
started, so `getApp` decides to switch to the registry version `exV1`, whose
descriptor is non-nil and whose child is already running.  `startEmbeddedApp`
returns no error, but the `IsStopped` guard skipped the start and the
bookkeeping: `started` is still false and `activeVersion` is not the target. -/
theorem C4_counterexample :
    exOrphan.started = false ∧ exOrphan.procs = [0] ∧ exV1.Appd = some 0 ∧
    (startEmbeddedApp okEnv exOrphan exV1).ret = none ∧
    ¬ ((startEmbeddedApp okEnv exOrphan exV1).m.started = true) ∧
    (startEmbeddedApp okEnv exOrphan exV1).m.activeVersion.AppVersion ≠ exV1.AppVersion := by
  decide

/-- C4 (amended): for every state and every target version that `getApp`
decides to switch to (not started, or a greater app version) with a non-nil
descriptor whose child is stopped once the active child has been stopped
(it is not running, or it is the active child itself), if `startEmbeddedApp`
returns no error then afterwards `activeVersion` is the target, `started` is
true, the target's child is running and a previously active child with a
different descriptor is no longer running. -/
theorem C4_switch_postcondition (e : Env) (m : Multiplexer) (target : Version) (p : AppdRef)
    (_hdec : m.started = false ∨ target.AppVersion > m.activeVersion.AppVersion)
    (hp : target.Appd = some p)
    (hstopped : m.IsRunning p = false ∨ m.activeVersion.Appd = some p)
    (hret : (startEmbeddedApp e m target).ret = none) :
    (startEmbeddedApp e m target).m.activeVersion = target ∧
    (startEmbeddedApp e m target).m.started = true ∧
    (startEmbeddedApp e m target).m.IsRunning p = true ∧
    (∀ q, m.activeVersion.Appd = some q → q ≠ p →
      (startEmbeddedApp e m target).m.IsRunning q = false) := by
  rcases startEmbeddedApp_cases e m target with ⟨_, h1⟩ | ⟨_, h1⟩ | ⟨q, hq, hs, _, _, _, _, h1⟩
  · rw [hp] at h1; cases h1
  · obtain ⟨q, hq, hs, hq2⟩ := h1 hret
    rw [hp] at hq
    cases hq
    have hpr := stopEmbeddedApp_procs e m hs
    have h3 : (stopEmbeddedApp e m).m.IsRunning p = false := by
      rcases hstopped with h | h
      · exact hpr.2 p h
      · exact hpr.1 p h
    simp [Multiplexer.IsStopped, h3] at hq2
  · rw [hp] at hq
    cases hq
    have hpr := stopEmbeddedApp_procs e m hs
    rw [h1]
    refine ⟨rfl, rfl, by simp [Multiplexer.IsRunning], fun q hq hne => ?_⟩
    have h4 := hpr.1 q hq
    simp only [Multiplexer.IsRunning, decide_eq_false_iff_not] at h4 ⊢
    intro hmem
    rcases List.mem_cons.mp hmem with h5 | h5
    · exact hne h5
    · exact h4 h5

/-- C4 (witness): the switch from `exV1` to `exV2`. -/
theorem C4_switch_postcondition_witness :
    (exEmbedded.started = false ∨ exV2.AppVersion > exEmbedded.activeVersion.AppVersion) ∧
    exV2.Appd = some 1 ∧
    (exEmbedded.IsRunning 1 = false ∨ exEmbedded.activeVersion.Appd = some 1) ∧
    (startEmbeddedApp okEnv exEmbedded exV2).ret = none ∧
    (startEmbeddedApp okEnv exEmbedded exV2).m.activeVersion = exV2 ∧
    (startEmbeddedApp okEnv exEmbedded exV2).m.started = true ∧
    (startEmbeddedApp okEnv exEmbedded exV2).m.IsRunning 1 = true ∧
    (∀ q, exEmbedded.activeVersion.Appd = some q → q ≠ 1 →
      (startEmbeddedApp okEnv exEmbedded exV2).m.IsRunning q = false) :=
  ⟨by decide, rfl, by decide, by decide,
    C4_switch_postcondition okEnv exEmbedded exV2 1 (by decide) rfl (by decide) (by decide)⟩

theorem startNativeApp_ok (e : Env) (m : Multiplexer) (app : Option AppHandle)
    (h : (startNativeApp e m).ret = .ok app) :
    app = e.createdApp ∧ (startNativeApp e m).m.nativeApp = e.createdApp ∧
    Event.appCreator ∈ (startNativeApp e m).events ∧
    (startNativeApp e m).m.activeVersion = m.activeVersion ∧
    (startNativeApp e m).m.procs = m.procs ∧ (startNativeApp e m).m.conn = m.conn ∧
    (startNativeApp e m).m.grpcEnable = m.grpcEnable ∧
    (startNativeApp e m).m.grpcAddress = m.grpcAddress := by
  unfold startNativeApp at h ⊢
  cases hg : getTraceWriter e m with
  | mk ev r =>
    cases r with
    | error err => simp [hg] at h
    | ok w =>
      cases ho : e.openDBErr with
      | some err => simp [hg, ho] at h
      | none =>
        simp only [hg, ho] at h ⊢
        simp only [Except.ok.injEq] at h
        simp [← h]

theorem enableGRPCAndAPIServers_ok (e : Env) (m : Multiplexer) (app : Option AppHandle)
    (h : (enableGRPCAndAPIServers e m app).ret = none) : app.isSome = true := by
  unfold enableGRPCAndAPIServers at h
  cases app with
  | none => simp at h
  | some a => rfl

theorem stopEmbeddedApp_running (e : Env) (m : Multiplexer) (p : AppdRef)
    (hp : m.activeVersion.Appd = some p) (hrun : m.IsRunning p = true) :
    (stopEmbeddedApp e m).events = [Event.appdStop p] ∧
    ((stopEmbeddedApp e m).ret = none →
      (stopEmbeddedApp e m).m.IsRunning p = false ∧
      (stopEmbeddedApp e m).m.activeVersion = Version.empty ∧
      (stopEmbeddedApp e m).m.started = false) := by
  unfold stopEmbeddedApp
  cases hse : e.stopErr with
  | some err => simp [hp, hrun, hse]
  | none =>
    simp only [hp, hrun, hse, if_true]
    simp [Multiplexer.IsRunning]

theorem getApp_native_stopfail (e : Env) (m : Multiplexer) (err err1 : Err)
    (hv : m.versions m.appVersion = .error err)
    (hs : (stopEmbeddedApp e m).ret = some err1) :
    (getApp e m).ret = .error (.wrapf "failed to stop embedded app: " err1) ∧
    (getApp e m).m = (stopEmbeddedApp e m).m ∧
    (getApp e m).events = (stopEmbeddedApp e m).events := by
  unfold getApp
  simp [hv, hs]

theorem getApp_native_existing (e : Env) (m : Multiplexer) (err : Err) (a : AppHandle)
    (hv : m.versions m.appVersion = .error err)
    (hs : (stopEmbeddedApp e m).ret = none)
    (hn : (stopEmbeddedApp e m).m.nativeApp = some a) :
    (getApp e m).ret = .ok (.native (some a)) ∧
    (getApp e m).m = (stopEmbeddedApp e m).m ∧
    (getApp e m).events = (stopEmbeddedApp e m).events := by
  unfold getApp
  simp [hv, hs, hn]

theorem getApp_native_created (e : Env) (m : Multiplexer) (err : Err)
    (hv : m.versions m.appVersion = .error err)
    (hs : (stopEmbeddedApp e m).ret = none)
    (hn : (stopEmbeddedApp e m).m.nativeApp = none) :
    (∃ err1, (getApp e m).ret = .error err1 ∧
      ((getApp e m).m = (startNativeApp e (stopEmbeddedApp e m).m).m ∨
        ∃ app, (getApp e m).m = (enableGRPCAndAPIServers e
          (startNativeApp e (stopEmbeddedApp e m).m).m app).m)) ∨
    (∃ app, (startNativeApp e (stopEmbeddedApp e m).m).ret = .ok app ∧
      (enableGRPCAndAPIServers e (startNativeApp e (stopEmbeddedApp e m).m).m app).ret = none ∧
      (getApp e m).m =
        (enableGRPCAndAPIServers e (startNativeApp e (stopEmbeddedApp e m).m).m app).m ∧
      (getApp e m).events = (stopEmbeddedApp e m).events ++
        (startNativeApp e (stopEmbeddedApp e m).m).events ++
        (enableGRPCAndAPIServers e (startNativeApp e (stopEmbeddedApp e m).m).m app).events ∧
      (getApp e m).ret = .ok (.native (enableGRPCAndAPIServers e
        (startNativeApp e (stopEmbeddedApp e m).m).m app).m.nativeApp)) := by
  unfold getApp
  simp only [hv, hs, hn]
  cases hnr : (startNativeApp e (stopEmbeddedApp e m).m).ret with
  | error err1 => exact Or.inl ⟨_, rfl, Or.inl rfl⟩
  | ok app =>
    cases hg : (enableGRPCAndAPIServers e (startNativeApp e (stopEmbeddedApp e m).m).m app).ret with
    | some err1 =>
      simp only [hg]
      exact Or.inl ⟨_, rfl, Or.inr ⟨app, rfl⟩⟩
    | none =>
      simp only [hg]
      exact Or.inr ⟨app, rfl, hg, rfl, rfl, rfl⟩

/-- C5: in a state in which the registry reports no version for the app
version and an embedded child is running, a `getApp` that returns a handle
has stopped that child (the first collaborator call is its `Stop`, it is no
longer running, `activeVersion` is the empty record) and returns exactly the
handle stored in `nativeApp`, which is non-nil; if `nativeApp` was nil it is
the application the app-creator returned, and if `nativeApp` was non-nil it is
that same application and stopping the child is the only collaborator call:
no application is created and no gRPC/API server is enabled again. -/
theorem C5_native_path (e : Env) (m : Multiplexer) (err : Err) (h : ABCI)
    (hv : m.versions m.appVersion = .error err)
    (hrun : embeddedVersionRunning m = true)
    (hok : (getApp e m).ret = .ok h) :
    (∃ p, m.activeVersion.Appd = some p ∧
      (getApp e m).events.head? = some (Event.appdStop p) ∧
      (getApp e m).m.IsRunning p = false ∧
      (m.nativeApp ≠ none → (getApp e m).events = [Event.appdStop p])) ∧
    (getApp e m).m.activeVersion = Version.empty ∧
    h = ABCI.native (getApp e m).m.nativeApp ∧
    (getApp e m).m.nativeApp ≠ none ∧
    (m.nativeApp = none → (getApp e m).m.nativeApp = e.createdApp ∧
      Event.appCreator ∈ (getApp e m).events) ∧
    (m.nativeApp ≠ none → (getApp e m).m.nativeApp = m.nativeApp ∧
      Event.appCreator ∉ (getApp e m).events) := by
  unfold embeddedVersionRunning at hrun
  cases hp : m.activeVersion.Appd with
  | none => simp [hp] at hrun
  | some p =>
    simp only [hp] at hrun
    obtain ⟨hev, hpost⟩ := stopEmbeddedApp_running e m p hp hrun
    have hnat := stopEmbeddedApp_nativeApp e m
    cases hs : (stopEmbeddedApp e m).ret with
    | some err1 =>
      have h1 := (getApp_native_stopfail e m err err1 hv hs).1
      rw [h1] at hok
      cases hok
    | none =>
      obtain ⟨hp1, hp2, _⟩ := hpost hs
      cases hna : m.nativeApp with
      | some a =>
        obtain ⟨g1, g2, g3⟩ := getApp_native_existing e m err a hv hs (by rw [hnat, hna])
        rw [g1] at hok
        simp only [Except.ok.injEq] at hok
        rw [g2, g3, hev, hnat, hna]
        exact ⟨⟨p, rfl, rfl, hp1, fun _ => rfl⟩, hp2, hok.symm, by simp, by simp,
          fun _ => ⟨rfl, by simp⟩⟩
      | none =>
        rcases getApp_native_created e m err hv hs (by rw [hnat, hna]) with
          ⟨err1, h1, _⟩ | ⟨app, hn, hg, g2, g3, g1⟩
        · rw [h1] at hok
          cases hok
        · rw [g1] at hok
          simp only [Except.ok.injEq] at hok
          obtain ⟨ha, hnat1, hev1, hact, hprocs, _⟩ :=
            startNativeApp_ok e (stopEmbeddedApp e m).m app hn
          obtain ⟨_, s2, s3, s4⟩ :=
            enableGRPCAndAPIServers_same e (startNativeApp e (stopEmbeddedApp e m).m).m app
          have hsome := enableGRPCAndAPIServers_ok e _ app hg
          have hrunning : (getApp e m).m.IsRunning p = false := by
            rw [g2]
            simp only [Multiplexer.IsRunning, s4, hprocs]
            exact hp1
          have hnative : (getApp e m).m.nativeApp = e.createdApp := by
            rw [g2, s2, hnat1]
          refine ⟨⟨p, rfl, ?_, hrunning, fun hne => absurd rfl hne⟩, ?_, ?_, ?_,
            fun _ => ⟨hnative, ?_⟩, fun hne => absurd rfl hne⟩
          · rw [g3, hev]; rfl
          · rw [g2, s3, hact, hp2]
          · rw [g2]; exact hok.symm
          · rw [hnative, ← ha]
            intro hnone
            rw [hnone] at hsome
            cases hsome
          · rw [g3]
            simp [hev1]

/-- C5 (witness): the multiplexer runs `exV1` and the chain moves to app
version 3, which the registry does not hold. -/
theorem C5_native_path_witness :
    (getApp okEnv { exEmbedded with appVersion := 3 }).ret = .ok (ABCI.native (some 7)) ∧
    (getApp okEnv { exEmbedded with appVersion := 3 }).m.activeVersion = Version.empty ∧
    ABCI.native (some 7) =
      ABCI.native (getApp okEnv { exEmbedded with appVersion := 3 }).m.nativeApp :=
  ⟨rfl,
    (C5_native_path okEnv { exEmbedded with appVersion := 3 }
      .ErrNoVersionFound (ABCI.native (some 7)) rfl rfl rfl).2.1,
    (C5_native_path okEnv { exEmbedded with appVersion := 3 }
      .ErrNoVersionFound (ABCI.native (some 7)) rfl rfl rfl).2.2.1⟩

theorem startNativeApp_frame (e : Env) (m : Multiplexer) :
    (startNativeApp e m).m.conn = m.conn ∧
    (startNativeApp e m).m.grpcEnable = m.grpcEnable ∧
    (startNativeApp e m).m.grpcAddress = m.grpcAddress ∧
    (startNativeApp e m).m.cmNode = m.cmNode ∧
    (startNativeApp e m).m.procs = m.procs := by
  unfold startNativeApp
  cases hg : getTraceWriter e m with
  | mk ev r =>
    cases r with
    | error err => simp
    | ok w =>
      cases ho : e.openDBErr with
      | some err => simp [ho]
      | none => simp [ho]

theorem startGRPCServer_conn (e : Env) (m : Multiplexer) :
    (startGRPCServer e m).m.conn = m.conn ∨
    (startGRPCServer e m).m.conn = some (.grpcGateway m.grpcAddress) := by
  unfold startGRPCServer
  cases e.splitHostPortErr with
  | some err => exact Or.inl rfl
  | none =>
    cases e.grpcClientErr with
    | some err => exact Or.inl rfl
    | none =>
      cases e.newGRPCServerErr with
      | some err => exact Or.inl rfl
      | none =>
        cases e.configureRPCErr with
        | some err => exact Or.inl rfl
        | none => exact Or.inr rfl

theorem enableGRPCAndAPIServers_conn (e : Env) (m : Multiplexer) (app : Option AppHandle) :
    (enableGRPCAndAPIServers e m app).m.conn = m.conn ∨
    ((enableGRPCAndAPIServers e m app).m.conn = some (.grpcGateway m.grpcAddress) ∧
      m.grpcEnable = true) := by
  have hg := startGRPCServer_conn e m
  unfold enableGRPCAndAPIServers
  cases app with
  | none => exact Or.inl rfl
  | some a =>
    by_cases hge : m.grpcEnable = true
    · have hg1 : (startGRPCServer e m).m.conn = m.conn ∨
          ((startGRPCServer e m).m.conn = some (.grpcGateway m.grpcAddress) ∧
            m.grpcEnable = true) := by
        rcases hg with h | h
        · exact Or.inl h
        · exact Or.inr ⟨h, hge⟩
      cases hr : (startGRPCServer e m).ret with
      | some err => simpa [hge, hr] using hg1
      | none =>
        by_cases ha : (startGRPCServer e m).m.apiEnable = true
        · cases ht : e.telemetryErr with
          | some err => simpa [hge, hr, ha, ht] using hg1
          | none => simpa [hge, hr, ha, ht, startAPIServer_same] using hg1
        · simpa [hge, hr, ha] using hg1
    · simp [hge]

/-- C6 (as stated, refuted): after a boot on the embedded version `exV1` the
loopback connection is dialled; the chain then moves past the registry and
`getApp` installs the native application.  In the state reached `nativeApp`
is non-nil and `conn` is still the connection dialled at boot. -/
theorem C6_counterexample :
    NewMultiplexer "tcp://127.0.0.1:26658" "tcp://127.0.0.1:26658" false "" false
        "localhost:9090" false (GetForAppVersion [exV1, exV2]) none "test" 1
      = .ok (exInit [exV1, exV2] 1) ∧
    (run (exInit [exV1, exV2] 1)
      [(Op.startApp, 1, okEnv), (Op.getApp, 3, okEnv)]).nativeApp = some 7 ∧
    (run (exInit [exV1, exV2] 1)
      [(Op.startApp, 1, okEnv), (Op.getApp, 3, okEnv)]).conn
      = some (Conn.abciClient "127.0.0.1:26658") ∧
    ¬ ((run (exInit [exV1, exV2] 1)
      [(Op.startApp, 1, okEnv), (Op.getApp, 3, okEnv)]).nativeApp ≠ none →
      (run (exInit [exV1, exV2] 1)
        [(Op.startApp, 1, okEnv), (Op.getApp, 3, okEnv)]).conn = none) := by
  refine ⟨rfl, by decide, by decide, by decide⟩

/-- The connection field after the native path of `getApp`. -/
theorem getApp_native_conn (e : Env) (m : Multiplexer) (err : Err)
    (hv : m.versions m.appVersion = .error err) :
    ((getApp e m).m.conn = m.conn ∨
      ((getApp e m).m.conn = some (Conn.grpcGateway m.grpcAddress) ∧ m.grpcEnable = true ∧
        m.nativeApp = none)) ∧
    (m.conn ≠ none → (getApp e m).m.conn ≠ none) := by
  have hmain : (getApp e m).m.conn = m.conn ∨
      ((getApp e m).m.conn = some (Conn.grpcGateway m.grpcAddress) ∧ m.grpcEnable = true ∧
        m.nativeApp = none) := by
    obtain ⟨_, _, f3, _, f5, f6, _⟩ := stopEmbeddedApp_frame e m
    have hnat := stopEmbeddedApp_nativeApp e m
    cases hs : (stopEmbeddedApp e m).ret with
    | some err1 =>
      rw [(getApp_native_stopfail e m err err1 hv hs).2.1]
      exact Or.inl f3
    | none =>
      cases hna : (stopEmbeddedApp e m).m.nativeApp with
      | some a =>
        rw [(getApp_native_existing e m err a hv hs hna).2.1]
        exact Or.inl f3
      | none =>
        obtain ⟨n1, n2, n3, _⟩ := startNativeApp_frame e (stopEmbeddedApp e m).m
        have hcases : ∀ app, (enableGRPCAndAPIServers e
              (startNativeApp e (stopEmbeddedApp e m).m).m app).m.conn = m.conn ∨
            ((enableGRPCAndAPIServers e
              (startNativeApp e (stopEmbeddedApp e m).m).m app).m.conn
                = some (Conn.grpcGateway m.grpcAddress) ∧ m.grpcEnable = true ∧
              m.nativeApp = none) := by
          intro app
          rcases enableGRPCAndAPIServers_conn e (startNativeApp e (stopEmbeddedApp e m).m).m app
            with h | ⟨h1, h2⟩
          · left; rw [h, n1, f3]
          · right
            rw [n3, f6] at h1
            rw [n2, f5] at h2
            exact ⟨h1, h2, by rw [← hnat]; exact hna⟩
        rcases getApp_native_created e m err hv hs hna with
          ⟨err1, _, h1 | ⟨app, h1⟩⟩ | ⟨app, _, _, h1, _, _⟩
        · rw [h1, n1, f3]; exact Or.inl rfl
        · rw [h1]; exact hcases app
        · rw [h1]; exact hcases app
  refine ⟨hmain, fun hne => ?_⟩
  rcases hmain with h | ⟨h, _, _⟩
  · rw [h]; exact hne
  · rw [h]; simp

/-- C7: when `getApp` takes the embedded path (the registry resolves the app
version) and the switch it needs, if any, returns no error, then with
`activeVersion` as it is after the call: for `ABCIClientVersion1` a V1 remote
proxy bound to `conn`, `chainID` and the current `appVersion` is returned,
for `ABCIClientVersion2` a V2 remote proxy bound to `conn`, and for every
other value `n` no handle is returned but the error whose message is
`unknown ABCI client version n`.  The call leaves `conn`, `chainID` and
`appVersion` as they were. -/
theorem C7_proxy_selection (e : Env) (m : Multiplexer) (cur : Version)
    (hv : m.versions m.appVersion = .ok cur)
    (hsw : (m.started = false ∨ cur.AppVersion > m.activeVersion.AppVersion) →
      (startEmbeddedApp e m cur).ret = none) :
    ((getApp e m).m.activeVersion.ABCIVersion = ABCIClientVersion1 →
      (getApp e m).ret = .ok (.remoteV1 m.conn m.chainID m.appVersion)) ∧
    ((getApp e m).m.activeVersion.ABCIVersion = ABCIClientVersion2 →
      (getApp e m).ret = .ok (.remoteV2 m.conn)) ∧
    (∀ n : Int, (getApp e m).m.activeVersion.ABCIVersion = n →
      n ≠ ABCIClientVersion1 → n ≠ ABCIClientVersion2 →
      (getApp e m).ret = .error (.errorf ("unknown ABCI client version " ++ toString n)) ∧
      (Err.errorf ("unknown ABCI client version " ++ toString n)).message
        = "unknown ABCI client version " ++ toString n) ∧
    (getApp e m).m.conn = m.conn ∧ (getApp e m).m.chainID = m.chainID ∧
    (getApp e m).m.appVersion = m.appVersion := by
  have hstate := (getApp_embedded_state e m cur hv).1
  have hframe : ∀ sw : Out (Option Err),
      sw = (if (!m.started || decide (cur.AppVersion > m.activeVersion.AppVersion)) = true then
        startEmbeddedApp e m cur else (⟨m, [], none⟩ : Out (Option Err))) →
      sw.ret = none ∧ sw.m.conn = m.conn ∧ sw.m.chainID = m.chainID ∧
        sw.m.appVersion = m.appVersion := by
    intro sw hsw1
    by_cases hc : (!m.started || decide (cur.AppVersion > m.activeVersion.AppVersion)) = true
    · rw [if_pos hc] at hsw1
      have hdec : m.started = false ∨ cur.AppVersion > m.activeVersion.AppVersion := by
        simpa using hc
      obtain ⟨_, f2, f3, f4, _⟩ := startEmbeddedApp_frame e m cur
      rw [hsw1]
      exact ⟨hsw hdec, f3, f4, f2⟩
    · rw [if_neg hc] at hsw1
      rw [hsw1]
      exact ⟨rfl, rfl, rfl, rfl⟩
  revert hstate
  unfold getApp
  simp only [hv]
  generalize hgen : (if (!m.started || decide (cur.AppVersion > m.activeVersion.AppVersion)) = true
    then startEmbeddedApp e m cur else (⟨m, [], none⟩ : Out (Option Err))) = sw
  obtain ⟨hr, hc, hch, hav⟩ := hframe sw hgen.symm
  intro hstate
  simp only [hr]
  by_cases h1 : sw.m.activeVersion.ABCIVersion = ABCIClientVersion1
  · rw [if_pos h1]
    refine ⟨fun _ => by rw [hc, hch, hav], fun h2 => ?_, fun n hn hn1 _ => ?_, hc, hch, hav⟩
    · rw [h1] at h2
      exact absurd h2 (by decide)
    · exact absurd (hn.symm.trans h1) hn1
  · by_cases h2 : sw.m.activeVersion.ABCIVersion = ABCIClientVersion2
    · rw [if_neg h1, if_pos h2]
      exact ⟨fun h => absurd h h1, fun _ => by rw [hc], fun n hn _ hn2 =>
        absurd (hn.symm.trans h2) hn2, hc, hch, hav⟩
    · rw [if_neg h1, if_neg h2]
      refine ⟨fun h => absurd h h1, fun h => absurd h h2, fun n hn _ _ => ?_, hc, hch, hav⟩
      change sw.m.activeVersion.ABCIVersion = n at hn
      rw [hn]
      exact ⟨rfl, rfl⟩

/-- C7 (witness): the multiplexer runs `exV1`, the chain moves to app version
2 and the switch to `exV2` succeeds. -/
theorem C7_proxy_selection_witness :
    ({ exEmbedded with appVersion := 2 } : Multiplexer).versions 2 = .ok exV2 ∧
    (startEmbeddedApp okEnv { exEmbedded with appVersion := 2 } exV2).ret = none ∧
    (getApp okEnv { exEmbedded with appVersion := 2 }).m.activeVersion.ABCIVersion
      = ABCIClientVersion2 ∧
    (getApp okEnv { exEmbedded with appVersion := 2 }).ret
      = .ok (.remoteV2 ({ exEmbedded with appVersion := 2 } : Multiplexer).conn) :=
  ⟨rfl, by decide, by decide,
    (C7_proxy_selection okEnv { exEmbedded with appVersion := 2 } exV2 rfl
      (fun _ => by decide)).2.1 (by decide)⟩

theorem runPreHandlers_eq (e : Env) (p : AppdRef) (hs : List String) :
    ∀ i, runPreHandlers e p i hs = hs.map (Event.preHandlerRun p) := by
  induction hs with
  | nil => intro i; rfl
  | cons h rest ih =>
    intro i
    unfold runPreHandlers
    cases e.preHandlerErr i <;> simp [ih]

theorem stopEmbeddedApp_env (e : Env) (f : Nat → Option Err) (m : Multiplexer) :
    stopEmbeddedApp { e with preHandlerErr := f } m = stopEmbeddedApp e m := rfl

/-- C8: for every target version with a descriptor whose child is stopped
when `startEmbeddedApp` reaches its `IsStopped` guard (stopping the active
child returned no error), and for every assignment of results to the
pre-handlers: the collaborator calls are the stop of the active child, if
any, then every pre-handler of the list exactly once and in list order, then
the child's `Start`; and the returned error, the resulting state and the
calls are the same for any other assignment of pre-handler results, in
particular the one in which all succeed. -/
theorem C8_prehandler_failures_ignored (e : Env) (m : Multiplexer) (version : Version)
    (p : AppdRef) (hp : version.Appd = some p)
    (hs : (stopEmbeddedApp e m).ret = none)
    (hst : (stopEmbeddedApp e m).m.IsStopped p = true) :
    (startEmbeddedApp e m version).events =
      (stopEmbeddedApp e m).events ++ version.PreHandlers.map (Event.preHandlerRun p) ++
        [Event.appdStart p (version.GetStartArgs (removeStart e.args))] ∧
    (∀ f : Nat → Option Err,
      (startEmbeddedApp { e with preHandlerErr := f } m version).ret
          = (startEmbeddedApp e m version).ret ∧
      (startEmbeddedApp { e with preHandlerErr := f } m version).m
          = (startEmbeddedApp e m version).m ∧
      (startEmbeddedApp { e with preHandlerErr := f } m version).events
          = (startEmbeddedApp e m version).events) ∧
    (startEmbeddedApp { e with preHandlerErr := fun _ => none } m version).ret
        = (startEmbeddedApp e m version).ret ∧
    (startEmbeddedApp { e with preHandlerErr := fun _ => none } m version).m
        = (startEmbeddedApp e m version).m := by
  have hall : ∀ f : Nat → Option Err,
      (startEmbeddedApp { e with preHandlerErr := f } m version).ret
          = (startEmbeddedApp e m version).ret ∧
      (startEmbeddedApp { e with preHandlerErr := f } m version).m
          = (startEmbeddedApp e m version).m ∧
      (startEmbeddedApp { e with preHandlerErr := f } m version).events
          = (startEmbeddedApp e m version).events := by
    intro f
    unfold startEmbeddedApp
    simp only [hp, stopEmbeddedApp_env, hs, hst, if_true, runPreHandlers_eq]
    cases hse : e.startErr <;> by_cases hx : e.startExited = true <;> simp [hse, hx]
  refine ⟨?_, hall, (hall _).1, (hall _).2.1⟩
  unfold startEmbeddedApp
  simp only [hp, hs, hst, if_true, runPreHandlers_eq]
  cases hse : e.startErr with
  | some err => simp
  | none =>
    by_cases hx : e.startExited = true
    · simp [hx]
    · simp [hx]

/-- C8 (witness): the start of `exV1`, whose pre-handler `migrate` fails. -/
theorem C8_prehandler_failures_ignored_witness :
    (startEmbeddedApp { okEnv with preHandlerErr := fun _ => some (.external "exit status 1") }
        (exInit [exV1] 1) exV1).events
      = [Event.preHandlerRun 0 "migrate", Event.appdStart 0 []] ∧
    (startEmbeddedApp { okEnv with preHandlerErr := fun _ => some (.external "exit status 1") }
        (exInit [exV1] 1) exV1).ret = none ∧
    (startEmbeddedApp { okEnv with preHandlerErr := fun _ => none } (exInit [exV1] 1) exV1).ret
      = (startEmbeddedApp
          { okEnv with preHandlerErr := fun _ => some (.external "exit status 1") }
          (exInit [exV1] 1) exV1).ret :=
  ⟨by decide, by decide,
    (C8_prehandler_failures_ignored
      { okEnv with preHandlerErr := fun _ => some (.external "exit status 1") }
      (exInit [exV1] 1) exV1 0 rfl rfl rfl).2.2.1⟩

/-- C9 (the code at the failing input): at boot on `exV1`, whose child is
stopped and whose pre-handler list is `migrate`, `startApp` starts the child
and dials the loopback connection without running the pre-handler, whereas
`startEmbeddedApp` on the same version runs `migrate` before the start; no
run of `startApp` ever runs a pre-handler. -/
theorem C9_startApp_runs_no_prehandler :
    (exInit [exV1] 1).versions (exInit [exV1] 1).appVersion = .ok exV1 ∧
    (exInit [exV1] 1).IsStopped 0 = true ∧
    (startApp okEnv (exInit [exV1] 1)).events
      = [Event.appdStart 0 [], Event.grpcNewClient "127.0.0.1:26658"] ∧
    (startEmbeddedApp okEnv (exInit [exV1] 1) exV1).events
      = [Event.preHandlerRun 0 "migrate", Event.appdStart 0 []] ∧
    (startApp okEnv (exInit [exV1] 1)).m.started = true ∧
    (startApp okEnv (exInit [exV1] 1)).m.activeVersion.AppVersion = 1 ∧
    (startApp okEnv (exInit [exV1] 1)).m.conn = some (Conn.abciClient "127.0.0.1:26658") := by
  refine ⟨rfl, by decide, by decide, by decide, by decide, by decide, by decide⟩

/-- C10: when the child's `Start` returns no error but `IsStopped()` is still
true right afterwards, `startApp` (on a resolved version whose child was
stopped) returns the error `app failed to start` and leaves the state
unchanged, and `startEmbeddedApp` (having stopped the active child without
error and found the target's child stopped) returns an error and leaves the
state as it was after stopping the active child: `started` and
`activeVersion` are as before the call or reset by the stop, never set for
the target. -/
theorem C10_start_but_stopped (e : Env) (m : Multiplexer) (version : Version) (p : AppdRef)
    (hp : version.Appd = some p) (hse : e.startErr = none) (hx : e.startExited = true) :
    (m.versions m.appVersion = .ok version → m.IsStopped p = true →
      (startApp e m).ret = some (.errorf "app failed to start") ∧ (startApp e m).m = m) ∧
    ((stopEmbeddedApp e m).ret = none → (stopEmbeddedApp e m).m.IsStopped p = true →
      (startEmbeddedApp e m version).ret
        = some (.errorf ("app for version " ++ fmtApp m.nativeApp ++ " failed to start")) ∧
      (startEmbeddedApp e m version).m = (stopEmbeddedApp e m).m ∧
      (startEmbeddedApp e m version).m.IsRunning p = false ∧
      (((startEmbeddedApp e m version).m.started = m.started ∧
          (startEmbeddedApp e m version).m.activeVersion = m.activeVersion) ∨
        ((startEmbeddedApp e m version).m.started = false ∧
          (startEmbeddedApp e m version).m.activeVersion = Version.empty))) := by
  refine ⟨fun hv hst => ?_, fun hs hst => ?_⟩
  · unfold startApp
    simp [hv, hp, hst, hse, hx]
  · have hm : (startEmbeddedApp e m version).m = (stopEmbeddedApp e m).m := by
      unfold startEmbeddedApp
      simp [hp, hs, hst, hse, hx]
    have hnat := stopEmbeddedApp_nativeApp e m
    refine ⟨?_, hm, ?_, ?_⟩
    · unfold startEmbeddedApp
      simp [hp, hs, hst, hse, hx, hnat]
    · rw [hm]
      simpa [Multiplexer.IsStopped] using hst
    · rw [hm]
      rcases stopEmbeddedApp_cases e m with ⟨h1, _⟩ | ⟨q, _, _, h1⟩
      · rw [h1]; exact Or.inl ⟨rfl, rfl⟩
      · rw [h1]; exact Or.inr ⟨rfl, rfl⟩

/-- C10 (witness): the child of `exV1` exits right after a successful
`Start`, at boot and on a switch. -/
theorem C10_start_but_stopped_witness :
    (startApp { okEnv with startExited := true } (exInit [exV1] 1)).ret
      = some (.errorf "app failed to start") ∧
    (startApp { okEnv with startExited := true } (exInit [exV1] 1)).m = exInit [exV1] 1 ∧
    (startEmbeddedApp { okEnv with startExited := true } (exInit [exV1] 1) exV1).m.started
      = false :=
  ⟨((C10_start_but_stopped { okEnv with startExited := true } (exInit [exV1] 1) exV1 0
      rfl rfl rfl).1 rfl rfl).1,
    ((C10_start_but_stopped { okEnv with startExited := true } (exInit [exV1] 1) exV1 0
      rfl rfl rfl).1 rfl rfl).2,
    by decide⟩

theorem initRemoteGrpcConn_cases (e : Env) (m : Multiplexer) :
    (m.address ≠ m.proxyApp ∧
      (initRemoteGrpcConn e m).ret = some (addressMismatch m.proxyApp m.address) ∧
      (initRemoteGrpcConn e m).m = m ∧ (initRemoteGrpcConn e m).events = []) ∨
    (m.address = m.proxyApp ∧
      (initRemoteGrpcConn e m).events = [Event.grpcNewClient (trimPrefix m.address "tcp://")] ∧
      ((∃ err, e.dialErr = some err ∧
          (initRemoteGrpcConn e m).ret
            = some (.wrapf "failed to prepare app connection: " err) ∧
          (initRemoteGrpcConn e m).m = m) ∨
        (e.dialErr = none ∧ (initRemoteGrpcConn e m).ret = none ∧
          (initRemoteGrpcConn e m).m.conn
            = some (Conn.abciClient (trimPrefix m.address "tcp://"))))) := by
  unfold initRemoteGrpcConn addressMismatch
  by_cases h : m.address = m.proxyApp
  · right
    cases hd : e.dialErr with
    | some err => simp [h, hd]
    | none => simp [h, hd]
  · left
    simp [h]

/-- Agreement of the two configured addresses, with the mismatch error named
by `addressMismatch`. -/
theorem initRemoteGrpcConn_agreement (e : Env) (m : Multiplexer) :
    (((initRemoteGrpcConn e m).ret = some (addressMismatch m.proxyApp m.address) ∧
        (initRemoteGrpcConn e m).m.conn = m.conn) ↔ m.proxyApp ≠ m.address) ∧
    (m.proxyApp = m.address →
      (initRemoteGrpcConn e m).events = [Event.grpcNewClient (trimPrefix m.address "tcp://")]) ∧
    (∀ cur, m.versions m.appVersion = .ok cur → (startApp e m).ret = none →
      m.proxyApp = m.address ∧
      trimPrefix m.proxyApp "tcp://" = trimPrefix m.address "tcp://" ∧
      (startApp e m).m.conn = some (Conn.abciClient (trimPrefix m.address "tcp://")) ∧
      Event.grpcNewClient (trimPrefix m.address "tcp://") ∈ (startApp e m).events) := by
  refine ⟨⟨fun h => ?_, fun h => ?_⟩, fun h => ?_, fun cur hv hret => ?_⟩
  · rcases initRemoteGrpcConn_cases e m with ⟨h1, _⟩ | ⟨_, _, ⟨err, _, h2, _⟩ | ⟨_, h2, _⟩⟩
    · exact fun heq => h1 heq.symm
    · rw [h2] at h
      simp [addressMismatch] at h
    · rw [h2] at h
      simp at h
  · rcases initRemoteGrpcConn_cases e m with ⟨_, h2, h3, _⟩ | ⟨h1, _⟩
    · exact ⟨h2, by rw [h3]⟩
    · exact absurd h1.symm h
  · rcases initRemoteGrpcConn_cases e m with ⟨h1, _⟩ | ⟨_, h2, _⟩
    · exact absurd h.symm h1
    · exact h2
  · have key : ∀ m1 : Multiplexer, m1.address = m.address → m1.proxyApp = m.proxyApp →
        (initRemoteGrpcConn e m1).ret = none →
        m.proxyApp = m.address ∧
        (initRemoteGrpcConn e m1).m.conn
          = some (Conn.abciClient (trimPrefix m.address "tcp://")) ∧
        Event.grpcNewClient (trimPrefix m.address "tcp://")
          ∈ (initRemoteGrpcConn e m1).events := by
      intro m1 ha hp hr
      rcases initRemoteGrpcConn_cases e m1 with ⟨_, h2, _⟩ | ⟨h1, h2, ⟨err, _, h3, _⟩ | ⟨_, _, h4⟩⟩
      · rw [h2] at hr; cases hr
      · rw [h3] at hr; cases hr
      · rw [ha, hp] at h1
        rw [ha] at h2 h4
        exact ⟨h1.symm, h4, by rw [h2]; simp⟩
    unfold startApp at hret ⊢
    simp only [hv] at hret ⊢
    cases hp : cur.Appd with
    | none => simp [hp] at hret
    | some p =>
      simp only [hp] at hret ⊢
      by_cases hst : m.IsStopped p = true
      · simp only [hst, if_true] at hret ⊢
        cases hse : e.startErr with
        | some err => simp [hse] at hret
        | none =>
          simp only [hse] at hret ⊢
          by_cases hx : e.startExited = true
          · simp [hx] at hret
          · simp only [hx] at hret ⊢
            simp only [Bool.false_eq_true, if_false] at hret ⊢
            obtain ⟨k1, k2, k3⟩ := key
              { m with procs := p :: m.procs, started := true, activeVersion := cur } rfl rfl hret
            exact ⟨k1, by rw [k1], k2, by simp [k3]⟩
      · simp only [hst] at hret ⊢
        simp only [Bool.false_eq_true, if_false] at hret ⊢
        obtain ⟨k1, k2, k3⟩ := key m rfl rfl hret
        exact ⟨k1, by rw [k1], k2, k3⟩

/-- C11: `initRemoteGrpcConn` returns the error whose text is `ABCI client
and server addresses must match:`, then ` client=` with the configured
`proxy_app`, then ` server=` with the configured `address`, then the advice to
reconcile the two flags, and leaves `conn` unchanged, if and only if
`proxy_app` and `address` differ as strings; when they are equal it dials the
address with a leading `tcp://` removed.  A boot on an embedded version
therefore returns no error only if the two strings are equal (hence equal
after stripping the prefix), and then `conn` is the connection dialled to the
configured address with the prefix removed. -/
theorem C11_endpoint_agreement (e : Env) (m : Multiplexer) :
    (((initRemoteGrpcConn e m).ret = some (.errorf (
          "ABCI client and server addresses must match:\n client="
          ++ m.proxyApp ++ "\n server=" ++ m.address ++ "\n"
          ++ "To resolve, please configure the ABCI client (via --proxy_app flag) to match the ABCI server (via --address flag)")) ∧
        (initRemoteGrpcConn e m).m.conn = m.conn) ↔ m.proxyApp ≠ m.address) ∧
    (m.proxyApp ≠ m.address →
      ∃ err, (initRemoteGrpcConn e m).ret = some err ∧
        err.message = "ABCI client and server addresses must match:\n client="
          ++ m.proxyApp ++ "\n server=" ++ m.address ++ "\n"
          ++ "To resolve, please configure the ABCI client (via --proxy_app flag) to match the ABCI server (via --address flag)" ∧
        (initRemoteGrpcConn e m).events = []) ∧
    (m.proxyApp = m.address →
      (initRemoteGrpcConn e m).events = [Event.grpcNewClient (trimPrefix m.address "tcp://")]) ∧
    (∀ cur, m.versions m.appVersion = .ok cur → (startApp e m).ret = none →
      m.proxyApp = m.address ∧
      trimPrefix m.proxyApp "tcp://" = trimPrefix m.address "tcp://" ∧
      (startApp e m).m.conn = some (Conn.abciClient (trimPrefix m.address "tcp://")) ∧
      Event.grpcNewClient (trimPrefix m.address "tcp://") ∈ (startApp e m).events) := by
  obtain ⟨h1, h2, h3⟩ := initRemoteGrpcConn_agreement e m
  refine ⟨h1, fun hne => ?_, h2, h3⟩
  rcases initRemoteGrpcConn_cases e m with ⟨_, k2, _, k4⟩ | ⟨k1, _⟩
  · exact ⟨_, k2, rfl, k4⟩
  · exact absurd k1.symm hne

/-- C11 (witness): a boot on `exV1` with both addresses
`tcp://127.0.0.1:26658` dials `127.0.0.1:26658`; with `proxy_app` `tcp://a:1`
and `address` `tcp://b:1` the error names both. -/
theorem C11_endpoint_agreement_witness :
    (exInit [exV1] 1).versions (exInit [exV1] 1).appVersion = .ok exV1 ∧
    (startApp okEnv (exInit [exV1] 1)).ret = none ∧
    trimPrefix "tcp://127.0.0.1:26658" "tcp://" = "127.0.0.1:26658" ∧
    (startApp okEnv (exInit [exV1] 1)).m.conn
      = some (Conn.abciClient (trimPrefix (exInit [exV1] 1).address "tcp://")) ∧
    (initRemoteGrpcConn okEnv
        { exInit [exV1] 1 with proxyApp := "tcp://a:1", address := "tcp://b:1" }).ret
      = some (.errorf "ABCI client and server addresses must match:\n client=tcp://a:1\n server=tcp://b:1\nTo resolve, please configure the ABCI client (via --proxy_app flag) to match the ABCI server (via --address flag)") :=
  ⟨rfl, by decide, by decide,
    ((C11_endpoint_agreement okEnv (exInit [exV1] 1)).2.2.2 exV1 rfl (by decide)).2.2.1,
    ((C11_endpoint_agreement okEnv
      { exInit [exV1] 1 with proxyApp := "tcp://a:1", address := "tcp://b:1" }).1.mpr
      (by decide)).1⟩

theorem stopCometNode_events (e : Env) (m : Multiplexer) :
    (stopCometNode e m).events =
      (match m.cmNode with
        | some n => if n ∈ m.nodesRunning then [Event.nodeStop n] else []
        | none => []) ∧
    (stopCometNode e m).m.nativeApp = m.nativeApp ∧
    (stopCometNode e m).m.activeVersion = m.activeVersion ∧
    (stopCometNode e m).m.procs = m.procs ∧
    (stopCometNode e m).m.conn = m.conn ∧
    (stopCometNode e m).m.traceWriter = m.traceWriter ∧
    (stopCometNode e m).m.cmNode = m.cmNode := by
  unfold stopCometNode
  cases hn : m.cmNode with
  | none => simp [hn]
  | some n =>
    by_cases hr : n ∈ m.nodesRunning
    · cases he : e.nodeStopErr <;> simp [hr, hn]
    · simp [hr, hn]

theorem stopNativeApp_events (e : Env) (m : Multiplexer) :
    (stopNativeApp e m).events =
      (match m.nativeApp with
        | some a => [Event.appClose a]
        | none => []) := by
  unfold stopNativeApp
  cases hn : m.nativeApp with
  | none => rfl
  | some a => cases he : e.appCloseErr <;> rfl

theorem stopEmbeddedApp_events (e : Env) (m : Multiplexer) :
    (stopEmbeddedApp e m).events =
      (match m.activeVersion.Appd with
        | some p => if p ∈ m.procs then [Event.appdStop p] else []
        | none => []) ∧
    (stopEmbeddedApp e m).m.traceWriter = m.traceWriter ∧
    (stopEmbeddedApp e m).m.nodesRunning = m.nodesRunning := by
  unfold stopEmbeddedApp
  cases hn : m.activeVersion.Appd with
  | none => simp
  | some p =>
    by_cases hr : p ∈ m.procs
    · cases he : e.stopErr <;> simp [hr, Multiplexer.IsRunning]
    · simp [hr, Multiplexer.IsRunning]

theorem stopGRPCConnection_events (e : Env) (m : Multiplexer) :
    (stopGRPCConnection e m).events =
      (match m.conn with
        | some c => [Event.connClose c]
        | none => []) ∧
    (stopGRPCConnection e m).m.traceWriter = m.traceWriter ∧
    (stopGRPCConnection e m).m.cmNode = m.cmNode ∧
    (stopGRPCConnection e m).m.nodesRunning = m.nodesRunning := by
  unfold stopGRPCConnection
  cases hn : m.conn with
  | none => simp
  | some c => cases he : e.connCloseErr <;> simp

theorem stopTraceWriter_events (e : Env) (m : Multiplexer) :
    (stopTraceWriter e m).events =
      (match m.traceWriter with
        | some w => [Event.traceWriterClose w]
        | none => []) := by
  unfold stopTraceWriter
  cases hn : m.traceWriter <;> rfl

/-- C12: for every state and every combination of failing teardown steps,
`Stop` returns nil and its collaborator calls are exactly the five teardown
steps in the fixed order consensus node, native application, embedded child,
wire connection, trace writer, each decided by the state before the call
alone: whether an earlier step failed has no influence on the later ones. -/
theorem C12_stop_best_effort (e : Env) (m : Multiplexer) :
    (Stop e m).ret = none ∧ (Stop e m).events = teardownCalls m ∧
    (Stop e m).events = (Stop failingStopEnv m).events ∧
    (Stop e m).events = (Stop okEnv m).events := by
  have hev : ∀ e1 : Env, (Stop e1 m).events = teardownCalls m := by
    intro e1
    obtain ⟨c1, c2, c3, c4, c5, c6, _⟩ := stopCometNode_events e1 m
    have n1 := stopNativeApp_state e1 (stopCometNode e1 m).m
    have n2 := stopNativeApp_events e1 (stopCometNode e1 m).m
    obtain ⟨s1, s2, _⟩ := stopEmbeddedApp_events e1 (stopCometNode e1 m).m
    obtain ⟨_, _, f3, _⟩ := stopEmbeddedApp_frame e1 (stopCometNode e1 m).m
    obtain ⟨g1, g2, _⟩ := stopGRPCConnection_events e1 (stopEmbeddedApp e1 (stopCometNode e1 m).m).m
    have t1 := stopTraceWriter_events e1
      (stopGRPCConnection e1 (stopEmbeddedApp e1 (stopCometNode e1 m).m).m).m
    unfold Stop teardownCalls
    simp only [n1, n2, c1, s1, g1, t1, g2, s2, f3, c2, c3, c4, c5, c6]
  exact ⟨rfl, hev e, by rw [hev e, hev failingStopEnv], by rw [hev e, hev okEnv]⟩

theorem Stop_state (e : Env) (m : Multiplexer) :
    (Stop e m).m = (stopGRPCConnection e (stopEmbeddedApp e (stopCometNode e m).m).m).m := by
  unfold Stop
  simp only [stopTraceWriter_state, stopNativeApp_state]

theorem Stop_quiescent (e : Env) (m : Multiplexer) (hq : Quiescent m) :
    (Stop e m).m = m ∧ (Stop e m).events = closeAgainCalls m := by
  obtain ⟨q1, q2, q3⟩ := hq
  have h1 : stopCometNode e m = ⟨m, [], none⟩ := by
    unfold stopCometNode
    cases hn : m.cmNode with
    | none => rfl
    | some n => simp [q1 n hn]
  have h2 : stopEmbeddedApp e m = ⟨m, [], none⟩ := by
    unfold embeddedVersionRunning at q2
    unfold stopEmbeddedApp
    cases hp : m.activeVersion.Appd with
    | none => rfl
    | some p =>
      simp only [hp] at q2
      simp [q2]
  have h3 : stopGRPCConnection e m = ⟨m, [], none⟩ := by
    unfold stopGRPCConnection
    simp [q3]
  refine ⟨by rw [Stop_state, h1, h2, h3], ?_⟩
  unfold Stop closeAgainCalls
  simp only [h1, stopNativeApp_state, h2, h3, stopNativeApp_events, stopTraceWriter_events]
  simp

theorem Stop_reaches_quiescent (e : Env) (m : Multiplexer) (h1 : e.nodeStopErr = none)
    (h2 : e.stopErr = none) (h3 : e.connCloseErr = none) :
    Quiescent (Stop e m).m ∧ (Stop e m).m.nativeApp = m.nativeApp ∧
    (Stop e m).m.traceWriter = m.traceWriter := by
  rw [Stop_state]
  have a1 : ∀ n, (stopCometNode e m).m.cmNode = some n → n ∉ (stopCometNode e m).m.nodesRunning := by
    intro n hk
    rw [(stopCometNode_events e m).2.2.2.2.2.2] at hk
    unfold stopCometNode
    simp only [hk]
    by_cases hr : n ∈ m.nodesRunning
    · simp [hr, h1]
    · simp [hr]
  obtain ⟨_, c2, _, _, _, c6, c7⟩ := stopCometNode_events e m
  have b0 : (stopEmbeddedApp e (stopCometNode e m).m).ret = none := by
    unfold stopEmbeddedApp
    cases hp : (stopCometNode e m).m.activeVersion.Appd with
    | none => rfl
    | some p =>
      by_cases hr : (stopCometNode e m).m.IsRunning p = true
      · simp [hr, h2]
      · simp [hr]
  have b1 := stopEmbeddedApp_stopped e (stopCometNode e m).m b0
  obtain ⟨_, b2, b3⟩ := stopEmbeddedApp_events e (stopCometNode e m).m
  obtain ⟨_, _, _, _, _, _, b4⟩ := stopEmbeddedApp_frame e (stopCometNode e m).m
  have b5 := stopEmbeddedApp_nativeApp e (stopCometNode e m).m
  have g0 := stopGRPCConnection_same e (stopEmbeddedApp e (stopCometNode e m).m).m
  obtain ⟨_, g2, g3, g4⟩ :=
    stopGRPCConnection_events e (stopEmbeddedApp e (stopCometNode e m).m).m
  have g5 : (stopGRPCConnection e (stopEmbeddedApp e (stopCometNode e m).m).m).m.conn = none := by
    unfold stopGRPCConnection
    cases hc : (stopEmbeddedApp e (stopCometNode e m).m).m.conn with
    | none => simp [hc]
    | some c => simp [h3]
  refine ⟨⟨fun n hn => ?_, ?_, g5⟩, ?_, ?_⟩
  · rw [g3, b4] at hn
    rw [g4, b3]
    exact a1 n hn
  · rw [g0.running]; exact b1
  · rw [g0.2.1, b5, c2]
  · rw [g2, b2, c6]

/-- C13 (as stated, refuted): `exNative` is a native multiplexer with a
running consensus node and a trace writer.  The first `Stop`, all of whose
steps succeed, closes the native application and the trace writer without
resetting the two fields, so the second `Stop` calls `Close` on both again. -/
theorem C13_counterexample :
    exNative.nativeApp = some 7 ∧ exNative.traceWriter = some 0 ∧
    (Stop okEnv exNative).events
      = [Event.nodeStop 0, Event.appClose 7, Event.traceWriterClose 0] ∧
    (Stop okEnv (Stop okEnv exNative).m).events
      = [Event.appClose 7, Event.traceWriterClose 0] ∧
    ¬ ((Stop okEnv (Stop okEnv exNative).m).events = []) := by
  decide

/-- C13 (amended): when in the first `Stop` the calls that stop the consensus
node, stop the embedded child and close the wire connection return no error,
a second `Stop`, whatever its collaborators return, leaves the state the
first one produced and issues no call to the consensus node, the embedded
child or the wire connection; its only calls are `Close` on the native
application and on the trace writer when these are non-nil, because `Stop`
never resets those two fields. -/
theorem C13_second_stop (e1 e2 : Env) (m : Multiplexer) (h1 : e1.nodeStopErr = none)
    (h2 : e1.stopErr = none) (h3 : e1.connCloseErr = none) :
    (Stop e2 (Stop e1 m).m).m = (Stop e1 m).m ∧
    (Stop e2 (Stop e1 m).m).events =
      (match m.nativeApp with
        | some a => [Event.appClose a]
        | none => []) ++
      (match m.traceWriter with
        | some w => [Event.traceWriterClose w]
        | none => []) := by
  obtain ⟨hq, hn, ht⟩ := Stop_reaches_quiescent e1 m h1 h2 h3
  obtain ⟨k1, k2⟩ := Stop_quiescent e2 (Stop e1 m).m hq
  refine ⟨k1, ?_⟩
  rw [k2]
  unfold closeAgainCalls
  rw [hn, ht]

/-- C13 (witness): two teardowns of the embedded multiplexer `exEmbedded`,
which has no native application and no trace writer: the second makes no
call. -/
theorem C13_second_stop_witness :
    okEnv.nodeStopErr = none ∧ okEnv.stopErr = none ∧ okEnv.connCloseErr = none ∧
    (Stop okEnv exEmbedded).events
      = [Event.appdStop 0, Event.connClose (Conn.abciClient "127.0.0.1:26658")] ∧
    (Stop failingStopEnv (Stop okEnv exEmbedded).m).m = (Stop okEnv exEmbedded).m ∧
    (Stop failingStopEnv (Stop okEnv exEmbedded).m).events =
      (match exEmbedded.nativeApp with
        | some a => [Event.appClose a]
        | none => []) ++
      (match exEmbedded.traceWriter with
        | some w => [Event.traceWriterClose w]
        | none => []) :=
  ⟨rfl, rfl, rfl, by decide,
    C13_second_stop okEnv failingStopEnv exEmbedded rfl rfl rfl⟩

theorem startApp_frame (e : Env) (m : Multiplexer) :
    (startApp e m).m.cmNode = m.cmNode ∧ (startApp e m).m.grpcOnly = m.grpcOnly ∧
    (∀ ev ∈ (startApp e m).events, ev.isNodeConstruction = false ∧ ev.isServerStart = false) := by
  have hi : ∀ m1 : Multiplexer, (initRemoteGrpcConn e m1).m.cmNode = m1.cmNode ∧
      (initRemoteGrpcConn e m1).m.grpcOnly = m1.grpcOnly ∧
      (∀ ev ∈ (initRemoteGrpcConn e m1).events,
        ev.isNodeConstruction = false ∧ ev.isServerStart = false) := by
    intro m1
    unfold initRemoteGrpcConn
    by_cases h : (m1.address != m1.proxyApp) = true
    · simp [h]
    · cases hd : e.dialErr <;>
        simp [h, hd, Event.isNodeConstruction, Event.isServerStart]
  have hn : (startNativeApp e m).m.cmNode = m.cmNode ∧
      (startNativeApp e m).m.grpcOnly = m.grpcOnly ∧
      (∀ ev ∈ (startNativeApp e m).events,
        ev.isNodeConstruction = false ∧ ev.isServerStart = false) := by
    unfold startNativeApp getTraceWriter openTraceWriter
    by_cases ht : m.traceStore = ""
    · cases ho : e.openDBErr <;>
        simp [ht, ho, Event.isNodeConstruction, Event.isServerStart]
    · cases hf : e.openFileErr <;> cases ho : e.openDBErr <;>
        simp [ht, hf, ho, Event.isNodeConstruction, Event.isServerStart]
  unfold startApp
  cases hv : m.versions m.appVersion with
  | error err =>
    by_cases hnf : err.isNoVersionFound = true
    · cases hr : (startNativeApp e m).ret <;> simpa [hnf, hr] using hn
    · simp [hnf]
  | ok cur =>
    cases hp : cur.Appd with
    | none => simp [hp]
    | some p =>
      by_cases hst : m.IsStopped p = true
      · cases hse : e.startErr with
        | some err => simp [hp, hst, hse, Event.isNodeConstruction, Event.isServerStart]
        | none =>
          by_cases hx : e.startExited = true
          · simp [hp, hst, hse, hx, Event.isNodeConstruction, Event.isServerStart]
          · have h6 := hi { m with procs := p :: m.procs, started := true, activeVersion := cur }
            simpa [hp, hst, hse, hx, Event.isNodeConstruction, Event.isServerStart] using h6
      · simpa [hp, hst] using hi m

theorem startGRPCServer_only_conn (e : Env) (m : Multiplexer) :
    (startGRPCServer e m).m = { m with conn := (startGRPCServer e m).m.conn } ∧
    (startGRPCServer e m).events.all (fun ev => !ev.isNodeConstruction) = true := by
  unfold startGRPCServer
  cases e.splitHostPortErr with
  | some err => simp
  | none =>
    cases e.grpcClientErr with
    | some err => simp [Event.isNodeConstruction]
    | none =>
      cases e.newGRPCServerErr with
      | some err => simp [Event.isNodeConstruction]
      | none =>
        cases e.configureRPCErr with
        | some err => simp [Event.isNodeConstruction]
        | none => simp [Event.isNodeConstruction]

theorem enableGRPCAndAPIServers_state (e : Env) (m : Multiplexer) (app : Option AppHandle) :
    (enableGRPCAndAPIServers e m app).m = m ∨
    (enableGRPCAndAPIServers e m app).m = (startGRPCServer e m).m := by
  unfold enableGRPCAndAPIServers
  cases app with
  | none => exact Or.inl rfl
  | some a =>
    by_cases hge : m.grpcEnable = true
    · right
      cases hr : (startGRPCServer e m).ret with
      | some err => simp [hge, hr]
      | none =>
        by_cases ha : (startGRPCServer e m).m.apiEnable = true
        · cases ht : e.telemetryErr with
          | some err => simp [hge, hr, ha, ht]
          | none => simp [hge, hr, ha, ht, startAPIServer_same]
        · simp [hge, hr, ha]
    · left
      simp [hge]

theorem enableGRPCAndAPIServers_events (e : Env) (m : Multiplexer) (app : Option AppHandle) :
    (enableGRPCAndAPIServers e m app).events.all (fun ev => !ev.isNodeConstruction) = true := by
  have hg := (startGRPCServer_only_conn e m).2
  have ha1 : (startAPIServer (startGRPCServer e m).m).events.all
      (fun ev => !ev.isNodeConstruction) = true := by
    unfold startAPIServer
    split <;> simp [Event.isNodeConstruction]
  have hreg : ∀ a : AppHandle, (if (m.apiEnable || m.grpcEnable) = true
      then [Event.registerServices a] else []).all (fun ev => !ev.isNodeConstruction) = true := by
    intro a
    split <;> simp [Event.isNodeConstruction]
  have htel : [Event.startTelemetry].all (fun ev => !ev.isNodeConstruction) = true := by
    simp [Event.isNodeConstruction]
  unfold enableGRPCAndAPIServers
  cases app with
  | none => rfl
  | some a =>
    by_cases hge : m.grpcEnable = true
    · simp only [hge, if_true]
      rw [hge] at hreg
      cases hr : (startGRPCServer e m).ret with
      | some err =>
        show ((if (m.apiEnable || true) = true then [Event.registerServices a] else [])
          ++ (startGRPCServer e m).events).all _ = true
        rw [List.all_append, hreg a, hg]; rfl
      | none =>
        by_cases ha : (startGRPCServer e m).m.apiEnable = true
        · simp only [ha, if_true]
          cases ht : e.telemetryErr with
          | some err =>
            show ((if (m.apiEnable || true) = true then [Event.registerServices a] else [])
              ++ (startGRPCServer e m).events ++ [Event.startTelemetry]).all _ = true
            rw [List.all_append, List.all_append, hreg a, hg, htel]; rfl
          | none =>
            show ((if (m.apiEnable || true) = true then [Event.registerServices a] else [])
              ++ (startGRPCServer e m).events ++ [Event.startTelemetry]
              ++ (startAPIServer (startGRPCServer e m).m).events).all _ = true
            rw [List.all_append, List.all_append, List.all_append, hreg a, hg, htel, ha1]; rfl
        · simp only [ha]
          show ((if (m.apiEnable || true) = true then [Event.registerServices a] else [])
            ++ (startGRPCServer e m).events).all _ = true
          rw [List.all_append, hreg a, hg]; rfl
    · rw [show m.grpcEnable = false by simpa using hge] at hreg ⊢
      simp only [Bool.false_eq_true, if_false]
      exact hreg a

theorem enableGRPCAndAPIServers_only_conn (e : Env) (m : Multiplexer) (app : Option AppHandle) :
    (enableGRPCAndAPIServers e m app).m
      = { m with conn := (enableGRPCAndAPIServers e m app).m.conn } ∧
    (∀ ev ∈ (enableGRPCAndAPIServers e m app).events, ev.isNodeConstruction = false) := by
  refine ⟨?_, fun ev hev => ?_⟩
  · rcases enableGRPCAndAPIServers_state e m app with h | h
    · rw [h]
    · rw [h]; exact (startGRPCServer_only_conn e m).1
  · have h := List.all_eq_true.mp (enableGRPCAndAPIServers_events e m app) ev hev
    simpa using h

theorem getApp_cmNode (e : Env) (m : Multiplexer) : (getApp e m).m.cmNode = m.cmNode := by
  cases hv : m.versions m.appVersion with
  | ok cur =>
    rw [(getApp_embedded_state e m cur hv).1]
    split
    · exact (startEmbeddedApp_frame e m cur).2.2.2.2
    · rfl
  | error err =>
    have f7 := (stopEmbeddedApp_frame e m).2.2.2.2.2.2
    cases hs : (stopEmbeddedApp e m).ret with
    | some err1 => rw [(getApp_native_stopfail e m err err1 hv hs).2.1, f7]
    | none =>
      cases hna : (stopEmbeddedApp e m).m.nativeApp with
      | some a => rw [(getApp_native_existing e m err a hv hs hna).2.1, f7]
      | none =>
        have n4 := (startNativeApp_frame e (stopEmbeddedApp e m).m).2.2.2.1
        have hen : ∀ app, (enableGRPCAndAPIServers e
            (startNativeApp e (stopEmbeddedApp e m).m).m app).m.cmNode = m.cmNode := by
          intro app
          rw [(enableGRPCAndAPIServers_only_conn e _ app).1]
          show (startNativeApp e (stopEmbeddedApp e m).m).m.cmNode = m.cmNode
          rw [n4, f7]
        rcases getApp_native_created e m err hv hs hna with
          ⟨err1, _, h1 | ⟨app, h1⟩⟩ | ⟨app, _, _, h1, _, _⟩
        · rw [h1, n4, f7]
        · rw [h1]; exact hen app
        · rw [h1]; exact hen app

theorem Stop_cmNode (e : Env) (m : Multiplexer) : (Stop e m).m.cmNode = m.cmNode := by
  rw [Stop_state, (stopGRPCConnection_events e _).2.2.1,
    (stopEmbeddedApp_frame e _).2.2.2.2.2.2, (stopCometNode_events e m).2.2.2.2.2.2]

theorem run_cmNode (steps : List (Op × Nat × Env)) :
    ∀ m : Multiplexer, (run m steps).cmNode = m.cmNode := by
  induction steps with
  | nil => intro m; rfl
  | cons s rest ih =>
    intro m
    obtain ⟨op, v, e⟩ := s
    unfold run
    rw [ih]
    cases op with
    | startApp => exact (startApp_frame e _).1
    | getApp => exact getApp_cmNode e _
    | Stop => exact Stop_cmNode e _

/-- C14: when `grpc-only` is set and no consensus node exists yet, `Start`
makes no call that constructs or starts a consensus node (it never runs
`startCmtNode`), leaves `cmNode` nil, and, once `startApp` has returned no
error, has set `GRPC.Enable` to true; in every state reached afterwards
through `startApp`, `getApp` and `Stop` steps `cmNode` is still nil. -/
theorem C14_grpc_only_exclusion (e : Env) (m : Multiplexer) (hg : m.grpcOnly = true)
    (hc : m.cmNode = none) :
    (∀ ev ∈ (Start e m).events, ev.isNodeConstruction = false) ∧
    (Start e m).m.cmNode = none ∧
    ((startApp e m).ret = none → (Start e m).m.grpcEnable = true) ∧
    (∀ steps : List (Op × Nat × Env), (run (Start e m).m steps).cmNode = none) := by
  obtain ⟨a1, a2, a3⟩ := startApp_frame e m
  have hstart : (∀ ev ∈ (Start e m).events, ev.isNodeConstruction = false) ∧
      (Start e m).m.cmNode = none ∧
      ((startApp e m).ret = none → (Start e m).m.grpcEnable = true) := by
    unfold Start
    cases hr : (startApp e m).ret with
    | some err =>
      simp only [hr]
      exact ⟨fun ev hev => (a3 ev hev).1, by rw [a1, hc], fun h => by cases h⟩
    | none =>
      have hgo : isGrpcOnly (startApp e m).m = true := by
        unfold isGrpcOnly; rw [a2, hg]
      simp only [hr, hgo, if_true]
      by_cases hemb : isEmbeddedApp { (startApp e m).m with grpcEnable := true } = true
      · simp only [hemb, if_true]
        refine ⟨fun ev hev => ?_, by show (startApp e m).m.cmNode = none; rw [a1, hc],
          fun _ => trivial⟩
        simp only [List.append_nil, List.mem_append, List.mem_singleton] at hev
        rcases hev with h | h
        · exact (a3 ev h).1
        · rw [h]; rfl
      · simp only [hemb]
        obtain ⟨g1, g2⟩ := enableGRPCAndAPIServers_only_conn e
          { (startApp e m).m with grpcEnable := true }
          ({ (startApp e m).m with grpcEnable := true } : Multiplexer).nativeApp
        have hcm : (enableGRPCAndAPIServers e { (startApp e m).m with grpcEnable := true }
            ({ (startApp e m).m with grpcEnable := true } : Multiplexer).nativeApp).m.cmNode
              = none := by
          rw [g1]; show (startApp e m).m.cmNode = none; rw [a1, hc]
        have hge : (enableGRPCAndAPIServers e { (startApp e m).m with grpcEnable := true }
            ({ (startApp e m).m with grpcEnable := true } : Multiplexer).nativeApp).m.grpcEnable
              = true := by
          rw [g1]
        cases hen : (enableGRPCAndAPIServers e { (startApp e m).m with grpcEnable := true }
            ({ (startApp e m).m with grpcEnable := true } : Multiplexer).nativeApp).ret with
        | some err =>
          simp only [Bool.false_eq_true, if_false, hen]
          refine ⟨fun ev hev => ?_, hcm, by first | trivial | exact fun _ => hge⟩
          simp only [List.append_nil, List.mem_append] at hev
          rcases hev with h | h
          · exact (a3 ev h).1
          · exact g2 ev h
        | none =>
          simp only [Bool.false_eq_true, if_false, hen]
          refine ⟨fun ev hev => ?_, hcm, by first | trivial | exact fun _ => hge⟩
          simp only [List.append_nil, List.mem_append, List.mem_singleton] at hev
          rcases hev with (h | h) | h
          · exact (a3 ev h).1
          · exact g2 ev h
          · rw [h]; rfl
  refine ⟨hstart.1, hstart.2.1, hstart.2.2, fun steps => ?_⟩
  rw [run_cmNode, hstart.2.1]

/-- C14 (witness): a gRPC-only boot at an app version the registry does not
hold, followed by a handle request and a teardown. -/
theorem C14_grpc_only_exclusion_witness :
    (Start okEnv { exInit [exV1] 2 with grpcOnly := true }).events
      = [Event.openDB, Event.appCreator, Event.registerServices 7,
          Event.grpcNewClient "localhost:9090", Event.newGRPCServer, Event.configureRPC,
          Event.blockEventListener, Event.grpcServerStart, Event.wait] ∧
    (Start okEnv { exInit [exV1] 2 with grpcOnly := true }).m.grpcEnable = true ∧
    (run (Start okEnv { exInit [exV1] 2 with grpcOnly := true }).m
      [(Op.getApp, 2, okEnv), (Op.Stop, 2, okEnv)]).cmNode = none :=
  ⟨by decide,
    (C14_grpc_only_exclusion okEnv { exInit [exV1] 2 with grpcOnly := true } rfl rfl).2.2.1
      (by decide),
    (C14_grpc_only_exclusion okEnv { exInit [exV1] 2 with grpcOnly := true } rfl rfl).2.2.2 _⟩

theorem stop_start_noServer (e : Env) (m : Multiplexer) :
    (stopEmbeddedApp e m).events.all (fun ev => !ev.isServerStart) = true ∧
    (startNativeApp e m).events.all (fun ev => !ev.isServerStart) = true ∧
    (∀ v, (startEmbeddedApp e m v).events.all (fun ev => !ev.isServerStart) = true) := by
  have h1 : (stopEmbeddedApp e m).events.all (fun ev => !ev.isServerStart) = true := by
    rw [(stopEmbeddedApp_events e m).1]
    cases m.activeVersion.Appd with
    | none => rfl
    | some p => by_cases hr : p ∈ m.procs <;> simp [hr, Event.isServerStart]
  have h2 : (startNativeApp e m).events.all (fun ev => !ev.isServerStart) = true := by
    unfold startNativeApp getTraceWriter openTraceWriter
    by_cases ht : m.traceStore = ""
    · cases ho : e.openDBErr <;> simp [ht, ho, Event.isServerStart]
    · cases hf : e.openFileErr <;> cases ho : e.openDBErr <;>
        simp [ht, hf, ho, Event.isServerStart]
  refine ⟨h1, h2, fun v => ?_⟩
  unfold startEmbeddedApp
  cases hp : v.Appd with
  | none => rfl
  | some p =>
    cases hs : (stopEmbeddedApp e m).ret with
    | some err => simpa [hs] using h1
    | none =>
      have hpre : (runPreHandlers e p 0 v.PreHandlers).all (fun ev => !ev.isServerStart)
          = true := by
        rw [runPreHandlers_eq]
        simp [Event.isServerStart]
      have hst1 : [Event.appdStart p (v.GetStartArgs (removeStart e.args))].all
          (fun ev => !ev.isServerStart) = true := by simp [Event.isServerStart]
      have hall : ((stopEmbeddedApp e m).events ++ runPreHandlers e p 0 v.PreHandlers ++
          [Event.appdStart p (v.GetStartArgs (removeStart e.args))]).all
          (fun ev => !ev.isServerStart) = true := by
        rw [List.all_append, List.all_append, h1, hpre, hst1]; rfl
      by_cases hst : (stopEmbeddedApp e m).m.IsStopped p = true
      · cases hse : e.startErr with
        | some err => simpa [hs, hst, hse] using hall
        | none =>
          by_cases hx : e.startExited = true
          · simpa [hs, hst, hse, hx] using hall
          · simpa [hs, hst, hse, hx] using hall
      · simpa [hs, hst] using h1

theorem getApp_native_created_events (e : Env) (m : Multiplexer) (err : Err)
    (hv : m.versions m.appVersion = .error err)
    (hs : (stopEmbeddedApp e m).ret = none)
    (hn : (stopEmbeddedApp e m).m.nativeApp = none) :
    (∃ err1, (startNativeApp e (stopEmbeddedApp e m).m).ret = .error err1 ∧
      (getApp e m).events = (stopEmbeddedApp e m).events ++
        (startNativeApp e (stopEmbeddedApp e m).m).events) ∨
    (∃ app, (startNativeApp e (stopEmbeddedApp e m).m).ret = .ok app ∧
      (getApp e m).m =
        (enableGRPCAndAPIServers e (startNativeApp e (stopEmbeddedApp e m).m).m app).m ∧
      (getApp e m).events = (stopEmbeddedApp e m).events ++
        (startNativeApp e (stopEmbeddedApp e m).m).events ++
        (enableGRPCAndAPIServers e (startNativeApp e (stopEmbeddedApp e m).m).m app).events) := by
  unfold getApp
  simp only [hv, hs, hn]
  cases hnr : (startNativeApp e (stopEmbeddedApp e m).m).ret with
  | error err1 => exact Or.inl ⟨_, rfl, rfl⟩
  | ok app =>
    cases hg : (enableGRPCAndAPIServers e (startNativeApp e (stopEmbeddedApp e m).m).m app).ret with
    | some err1 =>
      simp only [hg]
      exact Or.inr ⟨app, rfl, rfl, rfl⟩
    | none =>
      simp only [hg]
      exact Or.inr ⟨app, rfl, rfl, rfl⟩

theorem enableGRPCAndAPIServers_nil (e : Env) (m : Multiplexer) :
    (enableGRPCAndAPIServers e m none).ret
      = some (.errorf "unable to enable grpc and api servers, app is nil") ∧
    (enableGRPCAndAPIServers e m none).events = [] ∧
    (enableGRPCAndAPIServers e m none).m = m := ⟨rfl, rfl, rfl⟩

theorem noServer_of_all {l : List Event} (h : l.all (fun ev => !ev.isServerStart) = true) :
    ¬ ∃ ev ∈ l, ev.isServerStart = true := by
  rintro ⟨ev, hev, hs⟩
  have h1 := List.all_eq_true.mp h ev hev
  rw [hs] at h1
  cases h1

theorem getApp_server_start (e : Env) (m : Multiplexer)
    (hsrv : ∃ ev ∈ (getApp e m).events, ev.isServerStart = true) :
    (getApp e m).m.nativeApp ≠ none ∧ embeddedVersionRunning (getApp e m).m = false := by
  obtain ⟨s1, _, s3⟩ := stop_start_noServer e m
  cases hv : m.versions m.appVersion with
  | ok cur =>
    exfalso
    rw [(getApp_embedded_state e m cur hv).2] at hsrv
    split at hsrv
    · exact noServer_of_all (s3 cur) hsrv
    · obtain ⟨ev, hev, _⟩ := hsrv
      cases hev
  | error err =>
    cases hs : (stopEmbeddedApp e m).ret with
    | some err1 =>
      exfalso
      rw [(getApp_native_stopfail e m err err1 hv hs).2.2] at hsrv
      exact noServer_of_all s1 hsrv
    | none =>
      cases hna : (stopEmbeddedApp e m).m.nativeApp with
      | some a =>
        exfalso
        rw [(getApp_native_existing e m err a hv hs hna).2.2] at hsrv
        exact noServer_of_all s1 hsrv
      | none =>
        obtain ⟨_, n2, _⟩ := stop_start_noServer e (stopEmbeddedApp e m).m
        rcases getApp_native_created_events e m err hv hs hna with
          ⟨err1, _, h1⟩ | ⟨app, hn, h1, h2⟩
        · exfalso
          rw [h1] at hsrv
          refine noServer_of_all ?_ hsrv
          rw [List.all_append, s1, n2]; rfl
        · rw [h2] at hsrv
          obtain ⟨ev, hev, hsv⟩ := hsrv
          have hg : ev ∈ (enableGRPCAndAPIServers e
              (startNativeApp e (stopEmbeddedApp e m).m).m app).events := by
            rcases List.mem_append.mp hev with h | h
            · exfalso
              refine noServer_of_all ?_ ⟨ev, h, hsv⟩
              rw [List.all_append, s1, n2]; rfl
            · exact h
          have happ : app ≠ none := by
            intro hnone
            rw [hnone, (enableGRPCAndAPIServers_nil e _).2.1] at hg
            cases hg
          obtain ⟨ha, hnat, _, hact, hprocs, _⟩ :=
            startNativeApp_ok e (stopEmbeddedApp e m).m app hn
          have hsame := enableGRPCAndAPIServers_same e
            (startNativeApp e (stopEmbeddedApp e m).m).m app
          have hstopped := stopEmbeddedApp_stopped e m hs
          rw [h1]
          refine ⟨by rw [hsame.2.1, hnat, ← ha]; exact happ, ?_⟩
          rw [hsame.running]
          unfold embeddedVersionRunning Multiplexer.IsRunning at hstopped ⊢
          rw [hact, hprocs]
          exact hstopped

theorem startApp_authority (e : Env) (m : Multiplexer) :
    ((startApp e m).m.activeVersion = m.activeVersion ∧ (startApp e m).m.procs = m.procs) ∨
    (startApp e m).m.nativeApp = m.nativeApp := by
  unfold startApp
  cases hv : m.versions m.appVersion with
  | error err =>
    left
    by_cases hnf : err.isNoVersionFound = true
    · have h1 := (startNativeApp_active e m).1
      have h2 := (startNativeApp_frame e m).2.2.2.2
      cases hr : (startNativeApp e m).ret <;> simpa [hnf, hr] using ⟨h1, h2⟩
    · simp [hnf]
  | ok cur =>
    right
    cases hp : cur.Appd with
    | none => simp [hp]
    | some p =>
      by_cases hst : m.IsStopped p = true
      · cases hse : e.startErr with
        | some err => simp [hp, hst, hse]
        | none =>
          by_cases hx : e.startExited = true
          · simp [hp, hst, hse, hx]
          · have h6 := (initRemoteGrpcConn_same e
              { m with procs := p :: m.procs, started := true, activeVersion := cur }).2.1
            simpa [hp, hst, hse, hx] using h6
      · simpa [hp, hst] using (initRemoteGrpcConn_same e m).2.1

theorem startCmtNode_same (e : Env) (m : Multiplexer) :
    SameAuthority m (startCmtNode e m).m ∧
    (startCmtNode e m).events.all (fun ev => !ev.isServerStart) = true := by
  unfold startCmtNode
  cases e.nodeKeyErr with
  | some err => simp [SameAuthority, Event.isServerStart]
  | none =>
    cases e.newNodeErr with
    | some err => simp [SameAuthority, Event.isServerStart]
    | none =>
      cases e.nodeStartErr with
      | some err => simp [SameAuthority, Event.isServerStart]
      | none => simp [SameAuthority, Event.isServerStart]

/-- The state and the calls of `Start` after a successful `startApp`, in
terms of the node step `c` (forced gRPC flag or `startCmtNode`). -/
theorem Start_cases (e : Env) (m : Multiplexer) :
    ((startApp e m).ret ≠ none ∧ (Start e m).events = (startApp e m).events ∧
      (Start e m).m = (startApp e m).m) ∨
    (∃ c : Out (Option Err), (startApp e m).ret = none ∧
      SameAuthority (startApp e m).m c.m ∧
      c.events.all (fun ev => !ev.isServerStart) = true ∧
      ((c.ret ≠ none ∧ (Start e m).events = (startApp e m).events ++ c.events ∧
          (Start e m).m = c.m) ∨
        (isEmbeddedApp c.m = true ∧
          (Start e m).events = (startApp e m).events ++ c.events ++ [Event.wait] ∧
          (Start e m).m = c.m) ∨
        (isEmbeddedApp c.m = false ∧
          (Start e m).m = (enableGRPCAndAPIServers e c.m c.m.nativeApp).m ∧
          ((Start e m).events = (startApp e m).events ++ c.events ++
              (enableGRPCAndAPIServers e c.m c.m.nativeApp).events ∨
            (Start e m).events = (startApp e m).events ++ c.events ++
              (enableGRPCAndAPIServers e c.m c.m.nativeApp).events ++ [Event.wait])))) := by
  unfold Start
  cases hr : (startApp e m).ret with
  | some err =>
    left
    simp [hr]
  | none =>
    right
    simp only [hr]
    generalize hc : (if isGrpcOnly (startApp e m).m = true then
      (⟨{ (startApp e m).m with grpcEnable := true }, [], none⟩ : Out (Option Err))
      else startCmtNode e (startApp e m).m) = c
    have hsame : SameAuthority (startApp e m).m c.m ∧
        c.events.all (fun ev => !ev.isServerStart) = true := by
      rw [← hc]
      split
      · exact ⟨⟨rfl, rfl, rfl, rfl⟩, rfl⟩
      · exact startCmtNode_same e _
    refine ⟨c, trivial, hsame.1, hsame.2, ?_⟩
    cases hcr : c.ret with
    | some err =>
      left
      simp [hcr]
    | none =>
      right
      by_cases hemb : isEmbeddedApp c.m = true
      · left
        simp [hcr, hemb]
      · right
        have hf : isEmbeddedApp c.m = false := by simpa using hemb
        cases hg : (enableGRPCAndAPIServers e c.m c.m.nativeApp).ret with
        | some err => simp [hcr, hf, hg]
        | none => simp [hcr, hf, hg]

theorem Start_server_start (e : Env) (m : Multiplexer) (hn : m.nativeApp = none)
    (hr : embeddedVersionRunning m = false)
    (hsrv : ∃ ev ∈ (Start e m).events, ev.isServerStart = true) :
    (Start e m).m.nativeApp ≠ none ∧ embeddedVersionRunning (Start e m).m = false := by
  have ha : (startApp e m).events.all (fun ev => !ev.isServerStart) = true := by
    apply List.all_eq_true.mpr
    intro ev hev
    rw [((startApp_frame e m).2.2 ev hev).2]
    rfl
  rcases Start_cases e m with ⟨_, h1, _⟩ | ⟨c, _, hsame, hc, h⟩
  · rw [h1] at hsrv
    exact absurd hsrv (noServer_of_all ha)
  · rcases h with ⟨_, h1, _⟩ | ⟨_, h1, _⟩ | ⟨hemb, h2, _⟩
    · rw [h1] at hsrv
      refine absurd hsrv (noServer_of_all ?_)
      rw [List.all_append, ha, hc]; rfl
    · rw [h1] at hsrv
      refine absurd hsrv (noServer_of_all ?_)
      rw [List.all_append, List.all_append, ha, hc]; rfl
    · have hnat : c.m.nativeApp ≠ none := by
        unfold isEmbeddedApp isNativeApp at hemb
        intro hnone
        rw [hnone] at hemb
        cases hemb
      have hg := enableGRPCAndAPIServers_same e c.m c.m.nativeApp
      rw [h2]
      refine ⟨by rw [hg.2.1]; exact hnat, ?_⟩
      rw [hg.running, hsame.running]
      rcases startApp_authority e m with ⟨k1, k2⟩ | k
      · unfold embeddedVersionRunning Multiplexer.IsRunning at hr ⊢
        rw [k1, k2]
        exact hr
      · exfalso
        rw [hsame.2.1, k] at hnat
        exact hnat hn

/-- C15: the in-process gRPC server and API server are started only for the
native application.  If a `getApp` call starts one of them, the state it
leaves (no state change follows the start) has `nativeApp != nil` and no
running embedded child; the same holds for `Start` on a multiplexer that,
as after `NewMultiplexer`, has no native application and no running child.
When the embedded application is authoritative after `startApp`
(`nativeApp` is nil), `Start` starts neither server;
`enableGRPCAndAPIServers(nil)` returns an error without any call; and
`startAPIServer` returns `cannot start api server for embedded app` without
any call. -/
theorem C15_no_server_for_embedded (e : Env) (m : Multiplexer) :
    ((∃ ev ∈ (getApp e m).events, ev.isServerStart = true) →
      (getApp e m).m.nativeApp ≠ none ∧ embeddedVersionRunning (getApp e m).m = false) ∧
    (m.nativeApp = none → embeddedVersionRunning m = false →
      (∃ ev ∈ (Start e m).events, ev.isServerStart = true) →
      (Start e m).m.nativeApp ≠ none ∧ embeddedVersionRunning (Start e m).m = false) ∧
    (isEmbeddedApp (startApp e m).m = true →
      ∀ ev ∈ (Start e m).events, ev.isServerStart = false) ∧
    ((enableGRPCAndAPIServers e m none).ret
        = some (.errorf "unable to enable grpc and api servers, app is nil") ∧
      (enableGRPCAndAPIServers e m none).events = []) ∧
    (isEmbeddedApp m = true →
      (startAPIServer m).ret = some (.errorf "cannot start api server for embedded app") ∧
      (startAPIServer m).events = []) := by
  refine ⟨getApp_server_start e m, Start_server_start e m, fun hemb ev hev => ?_,
    ⟨rfl, rfl⟩, fun hemb => ?_⟩
  · have ha : (startApp e m).events.all (fun ev => !ev.isServerStart) = true := by
      apply List.all_eq_true.mpr
      intro ev1 hev1
      rw [((startApp_frame e m).2.2 ev1 hev1).2]
      rfl
    have hno : (Start e m).events.all (fun ev => !ev.isServerStart) = true := by
      rcases Start_cases e m with ⟨_, h1, _⟩ | ⟨c, _, hsame, hc, h⟩
      · rw [h1]; exact ha
      · rcases h with ⟨_, h1, _⟩ | ⟨_, h1, _⟩ | ⟨hf, _, _⟩
        · rw [h1, List.all_append, ha, hc]; rfl
        · rw [h1, List.all_append, List.all_append, ha, hc]; rfl
        · exfalso
          unfold isEmbeddedApp isNativeApp at hemb hf
          rw [hsame.2.1, hemb] at hf
          cases hf
    have h1 := List.all_eq_true.mp hno ev hev
    simpa using h1
  · unfold startAPIServer
    simp [hemb]

/-- C15 (witness): a boot on the embedded version `exV1` with the gRPC and
API servers enabled in the configuration starts neither. -/
theorem C15_no_server_for_embedded_witness :
    isEmbeddedApp
        (startApp okEnv { exInit [exV1] 1 with grpcEnable := true, apiEnable := true }).m
      = true ∧
    (Start okEnv { exInit [exV1] 1 with grpcEnable := true, apiEnable := true }).events
      = [Event.appdStart 0 [], Event.grpcNewClient "127.0.0.1:26658", Event.loadNodeKey,
          Event.newNode, Event.nodeStart 0, Event.wait] ∧
    (∀ ev ∈ (Start okEnv
        { exInit [exV1] 1 with grpcEnable := true, apiEnable := true }).events,
      ev.isServerStart = false) :=
  ⟨by decide, by decide,
    (C15_no_server_for_embedded okEnv
      { exInit [exV1] 1 with grpcEnable := true, apiEnable := true }).2.2.1 (by decide)⟩

theorem removeStart_loop (rest : List String) :
    ∀ acc : List String,
      rest.foldl (fun result arg => if arg != "start" then result ++ [arg] else result) acc
        = acc ++ rest.filter (fun arg => arg != "start") := by
  induction rest with
  | nil => intro acc; simp
  | cons x xs ih =>
    intro acc
    rw [List.foldl_cons, ih]
    by_cases hx : (x != "start") = true
    · simp [hx, List.filter_cons]
    · simp [hx, List.filter_cons]

theorem removeStart_cons (a0 : String) (rest : List String) :
    removeStart (a0 :: rest) = rest.filter (fun arg => arg != "start") := by
  show rest.foldl (fun result arg => if arg != "start" then result ++ [arg] else result) []
    = rest.filter (fun arg => arg != "start")
  rw [removeStart_loop]
  rfl

theorem filter_eq_erase_of_count (rest : List String) :
    rest.count "start" ≤ 1 → rest.filter (fun arg => arg != "start") = rest.erase "start" := by
  induction rest with
  | nil => intro _; rfl
  | cons x xs ih =>
    intro hc
    by_cases hx : x = "start"
    · subst hx
      have h0 : xs.count "start" = 0 := by
        rw [List.count_cons_self] at hc
        omega
      have hnot : "start" ∉ xs := List.count_eq_zero.mp h0
      have hf : xs.filter (fun arg => arg != "start") = xs := by
        apply List.filter_eq_self.mpr
        intro y hy
        have : y ≠ "start" := fun h => hnot (h ▸ hy)
        simpa using this
      simp [List.filter_cons, hf]
    · have hc1 : xs.count "start" ≤ 1 := by
        rw [List.count_cons_of_ne (Ne.symm hx)] at hc
        exact hc
      have hx1 : (x != "start") = true := by simpa using hx
      rw [List.filter_cons, if_pos hx1, ih hc1, List.erase_cons_tail]
      simpa using hx

/-- C16 (as stated, refuted): on an argv in which the literal `start` occurs
twice after the binary name, `removeStart` drops both occurrences, whereas
dropping only the first occurrence keeps the second. -/
theorem C16_counterexample :
    removeStart ["celestia-appd", "start", "--home", "start"] = ["--home"] ∧
    removeStartFirstOnly ["celestia-appd", "start", "--home", "start"] = ["--home", "start"] ∧
    removeStart ["celestia-appd", "start", "--home", "start"]
      ≠ removeStartFirstOnly ["celestia-appd", "start", "--home", "start"] := by
  decide

/-- C16 (amended): for the empty argv `removeStart` returns the empty argv;
for every non-empty argv it returns the argv with its first element dropped
and then every element equal to the literal `start` dropped, all other
elements kept in their original order.  When `start` occurs at most once
after the first element this is the argv with the first element and the
first occurrence of `start` dropped. -/
theorem C16_removeStart (a0 : String) (rest : List String) :
    removeStart [] = [] ∧
    removeStart (a0 :: rest) = rest.filter (fun arg => arg != "start") ∧
    (∀ x, x ∈ removeStart (a0 :: rest) ↔ x ∈ rest ∧ x ≠ "start") ∧
    (removeStart (a0 :: rest)).Sublist rest ∧
    (rest.count "start" ≤ 1 → removeStart (a0 :: rest) = removeStartFirstOnly (a0 :: rest)) := by
  refine ⟨rfl, removeStart_cons a0 rest, fun x => ?_, ?_, fun hc => ?_⟩
  · rw [removeStart_cons, List.mem_filter]
    simp
  · rw [removeStart_cons]
    exact List.filter_sublist rest
  · rw [removeStart_cons, filter_eq_erase_of_count rest hc]
    rfl

/-- C16 (witness): the usual command line, with one `start`. -/
theorem C16_removeStart_witness :
    ["start", "--home", "/root/.celestia-app"].count "start" ≤ 1 ∧
    removeStart ["celestia-appd", "start", "--home", "/root/.celestia-app"]
      = removeStartFirstOnly ["celestia-appd", "start", "--home", "/root/.celestia-app"] :=
  ⟨by decide,
    (C16_removeStart "celestia-appd" ["start", "--home", "/root/.celestia-app"]).2.2.2.2
      (by decide)⟩

/-- C17 (as stated, refuted): the argv names the binary again as the value of
a flag; `removeStart` drops the first element by position and keeps the later
element equal to it, so with a pass-through `GetStartArgs` the result contains
an element equal to `a[0]`. -/
theorem C17_counterexample :
    (∀ x, exV1.GetStartArgs x = x) ∧
    exV1.GetStartArgs (removeStart ["celestia-appd", "start", "--name", "celestia-appd"])
      = ["--name", "celestia-appd"] ∧
    "celestia-appd" ∈
      exV1.GetStartArgs (removeStart ["celestia-appd", "start", "--name", "celestia-appd"]) := by
  refine ⟨fun _ => rfl, by decide, by decide⟩

/-- C17 (amended): for every non-empty argv `a` and every version whose
`GetStartArgs` passes its input through unchanged,
`GetStartArgs(removeStart(a))` contains no element equal to the literal
`start`, it is a sublist of `a` without its first element, and it contains no
element equal to `a[0]` unless `a[0]` occurs again after the first position. -/
theorem C17_argv_purity (v : Version) (a0 : String) (rest : List String)
    (hpass : ∀ x, v.GetStartArgs x = x) :
    "start" ∉ v.GetStartArgs (removeStart (a0 :: rest)) ∧
    (v.GetStartArgs (removeStart (a0 :: rest))).Sublist rest ∧
    (a0 ∉ rest → a0 ∉ v.GetStartArgs (removeStart (a0 :: rest))) := by
  rw [hpass, removeStart_cons]
  refine ⟨?_, List.filter_sublist rest, fun h hmem => h (List.mem_filter.mp hmem).1⟩
  intro hmem
  have h := (List.mem_filter.mp hmem).2
  simp at h

/-- C17 (witness): the usual command line through the pass-through version
`exV1`. -/
theorem C17_argv_purity_witness :
    (∀ x, exV1.GetStartArgs x = x) ∧
    "start" ∉ exV1.GetStartArgs (removeStart ["celestia-appd", "start", "--home", "dir"]) ∧
    ("celestia-appd" ∉ ["start", "--home", "dir"] →
      "celestia-appd" ∉
        exV1.GetStartArgs (removeStart ["celestia-appd", "start", "--home", "dir"])) :=
  ⟨fun _ => rfl,
    (C17_argv_purity exV1 "celestia-appd" ["start", "--home", "dir"] (fun _ => rfl)).1,
    (C17_argv_purity exV1 "celestia-appd" ["start", "--home", "dir"] (fun _ => rfl)).2.2⟩

/-- C18 (the code at the failing input): for the range with `Min = Max = 1`
the guard `r.Max <= r.Min` makes `Rand` return 1 without drawing, and 1 is
not below `Max`; for the range from 5 to 2 it returns 5.  No value returned
for these ranges lies between `Min` inclusive and `Max` exclusive, as the
docstring of `Rand` says it does. -/
theorem C18_rand_degenerate_range :
    Txsim.ValidSource (fun _ => 0) ∧
    (Txsim.NewRange 1 1).Rand (fun _ => 0) = some 1 ∧
    (Txsim.NewRange 5 2).Rand (fun _ => 0) = some 5 ∧
    (∀ draw : Int → Int, (Txsim.NewRange 1 1).Rand draw = some 1) ∧
    ¬ ∃ n, (Txsim.NewRange 1 1).Rand (fun _ => 0) = some n ∧
      (Txsim.NewRange 1 1).Min ≤ n ∧ n < (Txsim.NewRange 1 1).Max := by
  refine ⟨fun n hn => ⟨Int.le_refl 0, hn⟩, by decide, by decide, fun _ => rfl, ?_⟩
  rintro ⟨n, h1, h2, h3⟩
  have h4 : (Txsim.NewRange 1 1).Min = 1 := rfl
  have h5 : (Txsim.NewRange 1 1).Max = 1 := rfl
  rw [h4] at h2
  rw [h5] at h3
  omega

/-- On a range with `Min < Max` whose width is an `int`, `Rand` returns a value
between `Min` inclusive and `Max` exclusive. -/
theorem Rand_in_bounds (r : Txsim.Range) (draw : Int → Int)
    (hmin : Txsim.IsInt r.Min) (hmax : Txsim.IsInt r.Max) (hsrc : Txsim.ValidSource draw)
    (h : r.Min < r.Max) (hw : r.Max - r.Min < 9223372036854775808) :
    ∃ n, r.Rand draw = some n ∧ r.Min ≤ n ∧ n < r.Max := by
  obtain ⟨m1, m2⟩ := hmin
  obtain ⟨x1, x2⟩ := hmax
  have hd : Txsim.wrapInt (r.Max - r.Min) = r.Max - r.Min := by
    unfold Txsim.wrapInt
    omega
  have hpos : 0 < r.Max - r.Min := by omega
  obtain ⟨k1, k2⟩ := hsrc (r.Max - r.Min) hpos
  have hk : Txsim.wrapInt (draw (r.Max - r.Min) + r.Min) = draw (r.Max - r.Min) + r.Min := by
    unfold Txsim.wrapInt
    omega
  refine ⟨draw (r.Max - r.Min) + r.Min, ?_, by omega, by omega⟩
  unfold Txsim.Range.Rand Txsim.Intn
  rw [if_neg (by omega), hd, if_neg (by omega)]
  simp [hk]

theorem startApp_conn (e : Env) (m : Multiplexer) :
    (startApp e m).m.conn = m.conn ∨ ∃ c, (startApp e m).m.conn = some c := by
  have hi : ∀ m1 : Multiplexer, m1.conn = m.conn →
      ((initRemoteGrpcConn e m1).m.conn = m.conn ∨
        ∃ c, (initRemoteGrpcConn e m1).m.conn = some c) := by
    intro m1 h1
    rcases initRemoteGrpcConn_cases e m1 with ⟨_, _, k, _⟩ | ⟨_, _, ⟨err, _, _, k⟩ | ⟨_, _, k⟩⟩
    · left; rw [k, h1]
    · left; rw [k, h1]
    · right; exact ⟨_, k⟩
  unfold startApp
  cases hv : m.versions m.appVersion with
  | error err =>
    left
    by_cases hnf : err.isNoVersionFound = true
    · have h1 := (startNativeApp_frame e m).1
      cases hr : (startNativeApp e m).ret <;> simpa [hnf, hr] using h1
    · simp [hnf]
  | ok cur =>
    cases hp : cur.Appd with
    | none => left; simp [hp]
    | some p =>
      by_cases hst : m.IsStopped p = true
      · cases hse : e.startErr with
        | some err => left; simp [hp, hst, hse]
        | none =>
          by_cases hx : e.startExited = true
          · left; simp [hp, hst, hse, hx]
          · have h6 := hi
              { m with procs := p :: m.procs, started := true, activeVersion := cur } rfl
            simpa [hp, hst, hse, hx] using h6
      · simpa [hp, hst] using hi m rfl

theorem getApp_conn (e : Env) (m : Multiplexer) :
    (getApp e m).m.conn = m.conn ∨ ∃ c, (getApp e m).m.conn = some c := by
  cases hv : m.versions m.appVersion with
  | ok cur =>
    left
    rw [(getApp_embedded_state e m cur hv).1]
    split
    · exact (startEmbeddedApp_frame e m cur).2.2.1
    · rfl
  | error err =>
    rcases (getApp_native_conn e m err hv).1 with h | ⟨h, _, _⟩
    · exact Or.inl h
    · exact Or.inr ⟨_, h⟩

theorem startCmtNode_conn (e : Env) (m : Multiplexer) : (startCmtNode e m).m.conn = m.conn := by
  unfold startCmtNode
  cases e.nodeKeyErr with
  | some err => rfl
  | none =>
    cases e.newNodeErr with
    | some err => rfl
    | none =>
      cases e.nodeStartErr with
      | some err => rfl
      | none => rfl

theorem Start_conn (e : Env) (m : Multiplexer) :
    (Start e m).m.conn = (startApp e m).m.conn ∨ ∃ c, (Start e m).m.conn = some c := by
  unfold Start
  cases hr : (startApp e m).ret with
  | some err =>
    left
    simp [hr]
  | none =>
    simp only [hr]
    generalize hc : (if isGrpcOnly (startApp e m).m = true then
      (⟨{ (startApp e m).m with grpcEnable := true }, [], none⟩ : Out (Option Err))
      else startCmtNode e (startApp e m).m) = c
    have hconn : c.m.conn = (startApp e m).m.conn := by
      rw [← hc]
      split
      · rfl
      · exact startCmtNode_conn e _
    cases hcr : c.ret with
    | some err =>
      left
      simp [hcr, hconn]
    | none =>
      by_cases hemb : isEmbeddedApp c.m = true
      · left
        simp [hcr, hemb, hconn]
      · have hf : isEmbeddedApp c.m = false := by simpa using hemb
        have hg := enableGRPCAndAPIServers_conn e c.m c.m.nativeApp
        have hres : (enableGRPCAndAPIServers e c.m c.m.nativeApp).m.conn
              = (startApp e m).m.conn ∨
            ∃ k, (enableGRPCAndAPIServers e c.m c.m.nativeApp).m.conn = some k := by
          rcases hg with h | ⟨h, _⟩
          · left; rw [h, hconn]
          · right; exact ⟨_, h⟩
        cases hgr : (enableGRPCAndAPIServers e c.m c.m.nativeApp).ret with
        | some err => simpa [hcr, hf, hgr] using hres
        | none => simpa [hcr, hf, hgr] using hres

theorem Stop_conn (e : Env) (m : Multiplexer) :
    (stopCometNode e m).m.conn = m.conn ∧
    (stopEmbeddedApp e (stopCometNode e m).m).m.conn = m.conn ∧
    (Stop e m).m.conn
      = (stopGRPCConnection e (stopEmbeddedApp e (stopCometNode e m).m).m).m.conn ∧
    ((Stop e m).m.conn = none →
      m.conn = none ∨
      (e.connCloseErr = none ∧ ∃ c, m.conn = some c ∧ Event.connClose c ∈ (Stop e m).events)) := by
  have c1 := (stopCometNode_events e m).2.2.2.2.1
  have c2 : (stopEmbeddedApp e (stopCometNode e m).m).m.conn = m.conn := by
    rw [(stopEmbeddedApp_frame e _).2.2.1, c1]
  refine ⟨c1, c2, by rw [Stop_state], fun hnone => ?_⟩
  rw [Stop_state] at hnone
  cases hm : m.conn with
  | none => exact Or.inl rfl
  | some c =>
    right
    rw [hm] at c2
    have hev : (stopGRPCConnection e (stopEmbeddedApp e (stopCometNode e m).m).m).events
        = [Event.connClose c] := by
      rw [(stopGRPCConnection_events e _).1, c2]
    have herr : e.connCloseErr = none := by
      cases he : e.connCloseErr with
      | none => rfl
      | some err =>
        exfalso
        unfold stopGRPCConnection at hnone
        simp [c2, he] at hnone
    refine ⟨herr, c, rfl, ?_⟩
    unfold Stop
    simp only [stopNativeApp_state, hev]
    simp

/-- C6 (amended): `conn` is not cleared when the native application becomes
authoritative.  When `getApp` selects the native application (the registry
reports no version) `conn` after the call is its value before the call, or,
when the in-process gRPC server is enabled and the native application had to
be created, the gRPC client connection that `startGRPCServer` stores in
`conn`.  A non-nil `conn` is still non-nil after `getApp` (either path),
after `startApp` and after `Start`.  In `Stop` the steps for the consensus
node and the embedded child leave `conn` as it is, and `conn` is nil after
`Stop` only if it was nil before or `stopGRPCConnection` called `Close` on it
and `Close` returned no error. -/
theorem C6_conn_cleared_only_by_stop (e : Env) (m : Multiplexer) :
    (∀ err, m.versions m.appVersion = .error err →
      ((getApp e m).m.conn = m.conn ∨
        ((getApp e m).m.conn = some (Conn.grpcGateway m.grpcAddress) ∧ m.grpcEnable = true ∧
          m.nativeApp = none))) ∧
    (m.conn ≠ none → (getApp e m).m.conn ≠ none) ∧
    (m.conn ≠ none → (startApp e m).m.conn ≠ none) ∧
    (m.conn ≠ none → (Start e m).m.conn ≠ none) ∧
    (stopCometNode e m).m.conn = m.conn ∧
    (stopEmbeddedApp e (stopCometNode e m).m).m.conn = m.conn ∧
    ((Stop e m).m.conn = none →
      m.conn = none ∨
      (e.connCloseErr = none ∧ ∃ c, m.conn = some c ∧
        Event.connClose c ∈ (Stop e m).events)) := by
  have keep : ∀ x : Option Conn, (x = m.conn ∨ ∃ c, x = some c) → m.conn ≠ none → x ≠ none := by
    intro x hx hne
    rcases hx with h | ⟨c, h⟩
    · rw [h]; exact hne
    · rw [h]; simp
  obtain ⟨s1, s2, _, s4⟩ := Stop_conn e m
  refine ⟨fun err hv => (getApp_native_conn e m err hv).1, keep _ (getApp_conn e m),
    keep _ (startApp_conn e m), fun hne => ?_, s1, s2, s4⟩
  rcases Start_conn e m with h | ⟨c, h⟩
  · rw [h]; exact keep _ (startApp_conn e m) hne
  · rw [h]; simp

/-- C6 (witness): the embedded version is running with its connection
dialled and the chain moves past the registry; the connection is still in
`conn` after `getApp` has installed the native application. -/
theorem C6_conn_cleared_only_by_stop_witness :
    (getApp okEnv { exEmbedded with appVersion := 3 }).m.nativeApp = some 7 ∧
    ({ exEmbedded with appVersion := 3 } : Multiplexer).conn ≠ none ∧
    (getApp okEnv { exEmbedded with appVersion := 3 }).m.conn ≠ none ∧
    ((getApp okEnv { exEmbedded with appVersion := 3 }).m.conn
        = ({ exEmbedded with appVersion := 3 } : Multiplexer).conn ∨
      ((getApp okEnv { exEmbedded with appVersion := 3 }).m.conn
          = some (Conn.grpcGateway ({ exEmbedded with appVersion := 3 } : Multiplexer).grpcAddress) ∧
        ({ exEmbedded with appVersion := 3 } : Multiplexer).grpcEnable = true ∧
        ({ exEmbedded with appVersion := 3 } : Multiplexer).nativeApp = none)) :=
  ⟨by decide, by decide,
    (C6_conn_cleared_only_by_stop okEnv { exEmbedded with appVersion := 3 }).2.1 (by decide),
    (C6_conn_cleared_only_by_stop okEnv { exEmbedded with appVersion := 3 }).1
      .ErrNoVersionFound rfl⟩

theorem GetForAppVersion_error (vs : List Version) (v : Nat) (err : Err)
    (h : GetForAppVersion vs v = .error err) : err = .ErrNoVersionFound := by
  unfold GetForAppVersion at h
  cases hf : vs.find? (fun x => x.AppVersion == v) with
  | some x => simp [hf] at h
  | none =>
    simp only [hf] at h
    cases h
    rfl

theorem startEmbeddedApp_noNativeStart (e : Env) (m : Multiplexer) (v : Version) :
    (stopEmbeddedApp e m).events.all (fun ev => !ev.isNativeStart) = true ∧
    (startEmbeddedApp e m v).events.all (fun ev => !ev.isNativeStart) = true ∧
    (startEmbeddedApp e m v).m.nativeApp = m.nativeApp := by
  have h1 : (stopEmbeddedApp e m).events.all (fun ev => !ev.isNativeStart) = true := by
    rw [(stopEmbeddedApp_events e m).1]
    cases m.activeVersion.Appd with
    | none => rfl
    | some p => by_cases hr : p ∈ m.procs <;> simp [hr, Event.isNativeStart]
  have hnat : (startEmbeddedApp e m v).m.nativeApp = m.nativeApp := by
    have hs := stopEmbeddedApp_nativeApp e m
    rcases startEmbeddedApp_cases e m v with ⟨k, _⟩ | ⟨k, _⟩ | ⟨p, _, _, _, _, _, _, k⟩
    · rw [k]
    · rw [k, hs]
    · rw [k]; exact hs
  refine ⟨h1, ?_, hnat⟩
  unfold startEmbeddedApp
  cases hp : v.Appd with
  | none => rfl
  | some p =>
    cases hs : (stopEmbeddedApp e m).ret with
    | some err => simpa [hs] using h1
    | none =>
      have hpre : (runPreHandlers e p 0 v.PreHandlers).all (fun ev => !ev.isNativeStart)
          = true := by
        rw [runPreHandlers_eq]
        simp [Event.isNativeStart]
      have hst1 : [Event.appdStart p (v.GetStartArgs (removeStart e.args))].all
          (fun ev => !ev.isNativeStart) = true := by simp [Event.isNativeStart]
      have hall : ((stopEmbeddedApp e m).events ++ runPreHandlers e p 0 v.PreHandlers ++
          [Event.appdStart p (v.GetStartArgs (removeStart e.args))]).all
          (fun ev => !ev.isNativeStart) = true := by
        rw [List.all_append, List.all_append, h1, hpre, hst1]; rfl
      by_cases hst : (stopEmbeddedApp e m).m.IsStopped p = true
      · cases hse : e.startErr with
        | some err => simpa [hs, hst, hse] using hall
        | none =>
          by_cases hx : e.startExited = true
          · simpa [hs, hst, hse, hx] using hall
          · simpa [hs, hst, hse, hx] using hall
      · simpa [hs, hst] using h1

theorem startApp_resolved (e : Env) (m : Multiplexer) (cur : Version)
    (hv : m.versions m.appVersion = .ok cur) :
    (startApp e m).m.nativeApp = m.nativeApp ∧
    (startApp e m).events.all (fun ev => !ev.isNativeStart) = true := by
  have hi : ∀ m1 : Multiplexer, (initRemoteGrpcConn e m1).m.nativeApp = m1.nativeApp ∧
      (initRemoteGrpcConn e m1).events.all (fun ev => !ev.isNativeStart) = true := by
    intro m1
    refine ⟨(initRemoteGrpcConn_same e m1).2.1, ?_⟩
    rcases initRemoteGrpcConn_cases e m1 with ⟨_, _, _, k⟩ | ⟨_, k, _⟩
    · rw [k]; rfl
    · rw [k]; rfl
  unfold startApp
  simp only [hv]
  cases hp : cur.Appd with
  | none => exact ⟨rfl, rfl⟩
  | some p =>
    by_cases hst : m.IsStopped p = true
    · cases hse : e.startErr with
      | some err => simp [hst, hse, Event.isNativeStart]
      | none =>
        by_cases hx : e.startExited = true
        · simp [hst, hse, hx, Event.isNativeStart]
        · have h6 := hi { m with procs := p :: m.procs, started := true, activeVersion := cur }
          simpa [hst, hse, hx, Event.isNativeStart] using h6
    · simpa [hst] using hi m

theorem getApp_resolved_ret (e : Env) (m : Multiplexer) (cur : Version)
    (hv : m.versions m.appVersion = .ok cur) :
    ∀ a, (getApp e m).ret ≠ .ok (.native a) := by
  intro a
  unfold getApp
  simp only [hv]
  generalize (if (!m.started || decide (cur.AppVersion > m.activeVersion.AppVersion)) = true then
    startEmbeddedApp e m cur else (⟨m, [], none⟩ : Out (Option Err))) = sw
  cases hr : sw.ret with
  | some err => simp
  | none =>
    by_cases h1 : sw.m.activeVersion.ABCIVersion = ABCIClientVersion1
    · rw [if_pos h1]; simp
    · by_cases h2 : sw.m.activeVersion.ABCIVersion = ABCIClientVersion2
      · rw [if_neg h1, if_pos h2]; simp
      · rw [if_neg h1, if_neg h2]; simp

theorem getApp_sentinel_native (e : Env) (m : Multiplexer) (err : Err)
    (hv : m.versions m.appVersion = .error err) :
    (∀ h, (getApp e m).ret = .ok h →
      h = .native (getApp e m).m.nativeApp ∧ (getApp e m).m.nativeApp ≠ none) ∧
    ((stopEmbeddedApp e m).ret = none → m.nativeApp = none →
      ∃ rest, (getApp e m).events = (stopEmbeddedApp e m).events ++
        (startNativeApp e (stopEmbeddedApp e m).m).events ++ rest) := by
  have hnat := stopEmbeddedApp_nativeApp e m
  refine ⟨fun h hok => ?_, fun hs hn => ?_⟩
  · cases hs : (stopEmbeddedApp e m).ret with
    | some err1 =>
      rw [(getApp_native_stopfail e m err err1 hv hs).1] at hok
      cases hok
    | none =>
      cases hna : (stopEmbeddedApp e m).m.nativeApp with
      | some a =>
        obtain ⟨g1, g2, _⟩ := getApp_native_existing e m err a hv hs hna
        rw [g1] at hok
        simp only [Except.ok.injEq] at hok
        rw [g2, hna]
        exact ⟨hok.symm, by simp⟩
      | none =>
        rcases getApp_native_created e m err hv hs hna with
          ⟨err1, h1, _⟩ | ⟨app, hn, hg, g2, _, g1⟩
        · rw [h1] at hok
          cases hok
        · rw [g1] at hok
          simp only [Except.ok.injEq] at hok
          obtain ⟨ha, hnat1, _⟩ := startNativeApp_ok e (stopEmbeddedApp e m).m app hn
          have s2 := (enableGRPCAndAPIServers_same e
            (startNativeApp e (stopEmbeddedApp e m).m).m app).2.1
          have hsome := enableGRPCAndAPIServers_ok e _ app hg
          refine ⟨by rw [g2]; exact hok.symm, ?_⟩
          rw [g2, s2, hnat1, ← ha]
          intro hnone
          rw [hnone] at hsome
          cases hsome
  · rcases getApp_native_created_events e m err hv hs (by rw [hnat, hn]) with
      ⟨err1, _, h1⟩ | ⟨app, _, _, h1⟩
    · exact ⟨[], by rw [h1]; simp⟩
    · exact ⟨_, h1⟩

/-- C20: over the registry (lookup by exact match, failing only with
`ErrNoVersionFound`) the result of `GetForAppVersion(appVersion)` is a version
or the sentinel, and `startApp` and `getApp` agree.  On the sentinel both
select the native application: `startApp` is `startNativeApp` (same state,
same calls, nil exactly when it succeeds), and `getApp` returns only the
handle stored in `nativeApp`, non-nil, running `startNativeApp` after the
stop when `nativeApp` was nil.  On a resolved version neither selects it:
neither makes a call of `startNativeApp`, both leave `nativeApp` as it was
and `getApp` returns no native handle.  A resolution error other than the
sentinel makes `startApp` return an error without any call or state
change. -/
theorem C20_native_selection_agrees (vs : List Version) (e : Env) (m : Multiplexer)
    (hreg : m.versions = GetForAppVersion vs) :
    ((∃ cur, m.versions m.appVersion = .ok cur) ∨
      m.versions m.appVersion = .error .ErrNoVersionFound) ∧
    (∀ err, m.versions m.appVersion = .error err → err = .ErrNoVersionFound) ∧
    (m.versions m.appVersion = .error .ErrNoVersionFound →
      ((startApp e m).m = (startNativeApp e m).m ∧
        (startApp e m).events = (startNativeApp e m).events ∧
        ((startApp e m).ret = none ↔ ∃ app, (startNativeApp e m).ret = .ok app)) ∧
      (∀ h, (getApp e m).ret = .ok h →
        h = .native (getApp e m).m.nativeApp ∧ (getApp e m).m.nativeApp ≠ none) ∧
      ((stopEmbeddedApp e m).ret = none → m.nativeApp = none →
        ∃ rest, (getApp e m).events = (stopEmbeddedApp e m).events ++
          (startNativeApp e (stopEmbeddedApp e m).m).events ++ rest)) ∧
    (∀ cur, m.versions m.appVersion = .ok cur →
      (startApp e m).m.nativeApp = m.nativeApp ∧
      (startApp e m).events.all (fun ev => !ev.isNativeStart) = true ∧
      (getApp e m).m.nativeApp = m.nativeApp ∧
      (getApp e m).events.all (fun ev => !ev.isNativeStart) = true ∧
      (∀ a, (getApp e m).ret ≠ .ok (.native a))) ∧
    (∀ (m1 : Multiplexer) (err : Err), m1.versions m1.appVersion = .error err →
      err.isNoVersionFound = false →
      (startApp e m1).m = m1 ∧ (startApp e m1).events = [] ∧ (startApp e m1).ret ≠ none) := by
  have herr : ∀ err, m.versions m.appVersion = .error err → err = .ErrNoVersionFound := by
    intro err h
    rw [hreg] at h
    exact GetForAppVersion_error vs _ err h
  refine ⟨?_, herr, fun hv => ⟨?_, (getApp_sentinel_native e m _ hv).1,
    (getApp_sentinel_native e m _ hv).2⟩, fun cur hv => ?_, fun m1 err hv hnf => ?_⟩
  · cases hv : m.versions m.appVersion with
    | ok cur => exact Or.inl ⟨cur, rfl⟩
    | error err => rw [herr err hv]; exact Or.inr rfl
  · unfold startApp
    simp only [hv, Err.isNoVersionFound, if_true]
    cases hr : (startNativeApp e m).ret with
    | error err1 => simp
    | ok app => simp
  · obtain ⟨a1, a2⟩ := startApp_resolved e m cur hv
    obtain ⟨g1, g2⟩ := getApp_embedded_state e m cur hv
    refine ⟨a1, a2, ?_, ?_, getApp_resolved_ret e m cur hv⟩
    · rw [g1]
      split
      · exact (startEmbeddedApp_noNativeStart e m cur).2.2
      · rfl
    · rw [g2]
      split
      · exact (startEmbeddedApp_noNativeStart e m cur).2.1
      · rfl
  · unfold startApp
    simp [hv, hnf]

/-- C20 (witness): the registry holds `exV1` for app version 1; at app version
1 neither entry point selects the native application, at app version 3 the
lookup fails with the sentinel and `getApp` returns the native handle. -/
theorem C20_native_selection_agrees_witness :
    (exInit [exV1] 1).versions = GetForAppVersion [exV1] ∧
    (exInit [exV1] 1).versions (exInit [exV1] 1).appVersion = .ok exV1 ∧
    (startApp okEnv (exInit [exV1] 1)).m.nativeApp = none ∧
    (∀ a, (getApp okEnv (exInit [exV1] 1)).ret ≠ .ok (.native a)) ∧
    (exInit [exV1] 3).versions (exInit [exV1] 3).appVersion = .error .ErrNoVersionFound ∧
    (getApp okEnv (exInit [exV1] 3)).ret = .ok (.native (some 7)) ∧
    (startApp okEnv (exInit [exV1] 3)).m = (startNativeApp okEnv (exInit [exV1] 3)).m :=
  ⟨rfl, rfl,
    ((C20_native_selection_agrees [exV1] okEnv (exInit [exV1] 1) rfl).2.2.2.1 exV1 rfl).1,
    ((C20_native_selection_agrees [exV1] okEnv (exInit [exV1] 1) rfl).2.2.2.1 exV1 rfl).2.2.2.2,
    rfl, rfl,
    ((C20_native_selection_agrees [exV1] okEnv (exInit [exV1] 3) rfl).2.2.1 rfl).1.1⟩

end Mux
